import Mathlib

/-!
# ngx_http_streaming_module.c : the HLS request handler and its configuration merge

A shallow embedding of `src/ngx_http_streaming_module.c`.

* `ngx_http_hls_merge_conf` is a pure function on two configuration records.
* `ngx_streaming_handler` is a function from an environment `Env` (the request
  as nginx hands it over, plus the answer of every collaborator the handler
  calls: nginx core, the MP4 reader, the two generators) to a `Result`:
  the value returned, the request fields the handler wrote, and the ordered
  trace of collaborator calls with their arguments and answers.

Bytes (`u_char`) are natural numbers; a NUL byte is `0`.  A `data` pointer is
modelled by the list of bytes stored from that address on.  The buffer of
the mapped path has the size that `ngx_http_map_uri_to_path` stored in
`path.len`; a store past its end is undefined behaviour.  Debug logging
(`ngx_log_debug1`) is left out; a logged message is recorded by its text
without the quoted file name and without the `errno` argument.
-/

namespace NgxHls

/-! ## Bytes and C strings -/

/-- One byte of memory (`u_char`); `0` is NUL. -/
abbrev u_char := Nat

/-- The bytes of an ASCII literal, without a terminator. -/
def bytes (s : String) : List u_char := s.toList.map Char.toNat

/-- A C string literal as it sits in memory: its bytes and the terminating NUL. -/
def c_lit (s : String) : List u_char := bytes s ++ [0]

/-- The C string stored at an address: the bytes in front of the first NUL. -/
def c_str : List u_char → List u_char
  | [] => []
  | b :: rest => if b = 0 then [] else b :: c_str rest

/-- The nginx string `ngx_str_t`: a length field and a data pointer (the bytes
    stored from `data` on). -/
structure ngx_str_t where
  len : Nat
  data : List u_char
  deriving DecidableEq

/-- Scan of `strrchr`: `i` is the index of the head of the remaining input,
    `last` the index of the last match seen so far. -/
def strrchr_scan (c : u_char) : List u_char → Nat → Option Nat → Option Nat
  | [], _, last => last
  | b :: rest, i, last => strrchr_scan c rest (i + 1) (if b = c then some i else last)

/-- The call `strrchr(s, c)` for a non-NUL `c`: the offset of the last `c` in the C
    string at `s`, or `none` for the NULL pointer when there is none. -/
def strrchr (s : List u_char) (c : u_char) : Option Nat :=
  strrchr_scan c (c_str s) 0 none

/-- Is `needle` a prefix of `hay`?  (The inner comparison loop of `strstr`.) -/
def starts_with : List u_char → List u_char → Bool
  | _, [] => true
  | [], _ :: _ => false
  | h :: hay, n :: needle => h == n && starts_with hay needle

/-- Outer loop of `strstr` over the C string contents: the offset of the
    first occurrence of `needle`, or `none` for the NULL pointer. -/
def strstr_scan (needle : List u_char) : List u_char → Option Nat
  | [] => if starts_with [] needle then some 0 else none
  | h :: hay =>
    if starts_with (h :: hay) needle then some 0
    else (strstr_scan needle hay).map (· + 1)

/-- The call `ngx_strstr(s, needle)`, which nginx defines as `strstr`: both arguments
    are C strings. -/
def ngx_strstr (s needle : List u_char) : Option Nat :=
  strstr_scan (c_str needle) (c_str s)

/-- The call `strcpy(dst + off, src)` into a buffer of `size` bytes: the bytes
    of the C string `src` and its NUL are stored from offset `off` on; the
    bytes in front of `off` and behind the copy are kept.  A copy that runs
    past the end of the buffer is undefined behaviour: `none`. -/
def strcpy (size : Nat) (dst : List u_char) (off : Nat) (src : List u_char) :
    Option (List u_char) :=
  if off + (c_str src).length + 1 ≤ size then
    some (dst.take off ++ (c_str src ++ [0]) ++ dst.drop (off + (c_str src).length + 1))
  else none

/-- The store `p[i] = b` into a buffer of `size` bytes; a store past the end
    of the buffer is undefined behaviour: `none`. -/
def poke (size : Nat) (p : List u_char) (i : Nat) (b : u_char) : Option (List u_char) :=
  if i < size then some (p.take i ++ [b] ++ p.drop (i + 1)) else none

/-- The extension rewrite of `ngx_streaming_handler` (source lines 102-106):
    `ext = strrchr(path.data, '.'); strcpy(ext, ".mp4");`
    `path.len = (ext - path.data) + 4; path.data[path.len] = 0`,
    on a path whose buffer has `size` bytes.  The buffer comes from
    `ngx_http_map_uri_to_path(r, &path, &root, 1)` (nginx core), which
    allocates the string, its NUL and the one reserved byte and stores that
    size in `path.len`; the handler runs the rewrite with `size` the value of
    `path.len` on entry.  The result is `none` when the behaviour is
    undefined: `strcpy(NULL, ...)` for a path without a '.', or a store past
    the end of the buffer. -/
def rewrite_ext (size : Nat) (path : ngx_str_t) : Option ngx_str_t :=
  match strrchr path.data 46 with
  | none => none
  | some ext =>
    match strcpy size path.data ext (c_lit ".mp4") with
    | none => none
    | some data =>
      let len := ext + 4
      match poke size data len 0 with
      | none => none
      | some data => some { len := len, data := data }

/-! ## Configuration (`hls_conf_t`) -/

/-- The marker `NGX_CONF_UNSET_UINT`, that is `(ngx_uint_t) -1`, on a 64-bit build. -/
def NGX_CONF_UNSET_UINT : Nat := 2 ^ 64 - 1

/-- The marker `NGX_CONF_UNSET_SIZE`, that is `(size_t) -1`, on a 64-bit build. -/
def NGX_CONF_UNSET_SIZE : Nat := 2 ^ 64 - 1

/-- The marker `NGX_CONF_UNSET` of an unset flag. -/
def NGX_CONF_UNSET : Int := -1

/-- The module configuration `hls_conf_t`, with the four fields the module
    creates and merges. -/
structure hls_conf_t where
  length : Nat
  relative : Int
  buffer_size : Nat
  max_buffer_size : Nat
  deriving DecidableEq

/-- The function `ngx_http_hls_create_conf`: every field starts unset. -/
def ngx_http_hls_create_conf : hls_conf_t :=
  { length := NGX_CONF_UNSET_UINT
    relative := NGX_CONF_UNSET
    buffer_size := NGX_CONF_UNSET_SIZE
    max_buffer_size := NGX_CONF_UNSET_SIZE }

/-- Modelled from the spec: the nginx macro `ngx_conf_merge_uint_value` is not
    under src/; it keeps a set child value, else takes the parent value when
    that is set, else the default. -/
def ngx_conf_merge_uint_value (conf prev dflt : Nat) : Nat :=
  if conf = NGX_CONF_UNSET_UINT then
    (if prev = NGX_CONF_UNSET_UINT then dflt else prev)
  else conf

/-- Modelled from the spec: the nginx macro `ngx_conf_merge_value` (flags) is
    not under src/; same rule with the marker `NGX_CONF_UNSET`. -/
def ngx_conf_merge_value (conf prev dflt : Int) : Int :=
  if conf = NGX_CONF_UNSET then
    (if prev = NGX_CONF_UNSET then dflt else prev)
  else conf

/-- Modelled from the spec: the nginx macro `ngx_conf_merge_size_value` is not
    under src/; same rule with the marker `NGX_CONF_UNSET_SIZE`. -/
def ngx_conf_merge_size_value (conf prev dflt : Nat) : Nat :=
  if conf = NGX_CONF_UNSET_SIZE then
    (if prev = NGX_CONF_UNSET_SIZE then dflt else prev)
  else conf

/-- What a configuration callback returns. -/
inductive conf_rc
  | NGX_CONF_OK
  | NGX_CONF_ERROR
  deriving DecidableEq

/-- Outcome of `ngx_http_hls_merge_conf`: the returned value, the child
    configuration as the merge leaves it, and the messages logged. -/
structure MergeResult where
  rc : conf_rc
  conf : hls_conf_t
  log : List String
  deriving DecidableEq

/-- The function `ngx_http_hls_merge_conf(cf, parent, child)`. -/
def ngx_http_hls_merge_conf (prev conf : hls_conf_t) : MergeResult :=
  let conf : hls_conf_t :=
    { length := ngx_conf_merge_uint_value conf.length prev.length 8
      relative := ngx_conf_merge_value conf.relative prev.relative 1
      buffer_size := ngx_conf_merge_size_value conf.buffer_size prev.buffer_size (512 * 1024)
      max_buffer_size :=
        ngx_conf_merge_size_value conf.max_buffer_size prev.max_buffer_size (10 * 1024 * 1024) }
  if conf.length < 1 then
    { rc := conf_rc.NGX_CONF_ERROR, conf := conf,
      log := ["ngx_length must be equal or more than 1"] }
  else
    { rc := conf_rc.NGX_CONF_OK, conf := conf, log := [] }

/-! ## The request handler -/

/-- Return codes and status codes of nginx that the handler uses. -/
def NGX_OK : Int := 0
/-- The generic failure code of nginx. -/
def NGX_ERROR : Int := -1
/-- The code by which a handler declines a request. -/
def NGX_DECLINED : Int := -5
/-- The code `ngx_close_file` returns on failure. -/
def NGX_FILE_ERROR : Int := -1
/-- Status 200. -/
def NGX_HTTP_OK : Int := 200
/-- Status 403. -/
def NGX_HTTP_FORBIDDEN : Int := 403
/-- Status 404. -/
def NGX_HTTP_NOT_FOUND : Int := 404
/-- Status 405. -/
def NGX_HTTP_NOT_ALLOWED : Int := 405
/-- Status 415. -/
def NGX_HTTP_UNSUPPORTED_MEDIA_TYPE : Int := 415
/-- Status 500. -/
def NGX_HTTP_INTERNAL_SERVER_ERROR : Int := 500
/-- Method bit of GET in `r->method`. -/
def NGX_HTTP_GET : Nat := 0x0002
/-- Method bit of HEAD in `r->method`. -/
def NGX_HTTP_HEAD : Nat := 0x0004

/-- The `errno` values the handler distinguishes; they come from the platform
    headers, so they are a parameter of the handler. -/
structure Errnos where
  NGX_ENOENT : Int
  NGX_ENOTDIR : Int
  NGX_ENAMETOOLONG : Int
  NGX_EACCES : Int
  deriving DecidableEq

/-- The values on Linux. -/
def linux_errnos : Errnos :=
  { NGX_ENOENT := 2, NGX_ENOTDIR := 20, NGX_ENAMETOOLONG := 36, NGX_EACCES := 13 }

/-- The case labels of a C `switch` are pairwise different; here also
    different from the label `0`. -/
def Errnos.distinct (e : Errnos) : Prop :=
  e.NGX_ENOENT ≠ 0 ∧ e.NGX_ENOTDIR ≠ 0 ∧ e.NGX_ENAMETOOLONG ≠ 0 ∧ e.NGX_EACCES ≠ 0 ∧
  e.NGX_EACCES ≠ e.NGX_ENOENT ∧ e.NGX_EACCES ≠ e.NGX_ENOTDIR ∧
  e.NGX_EACCES ≠ e.NGX_ENAMETOOLONG

/-- Severity of a message passed to `ngx_log_error`. -/
inductive log_level
  | NGX_LOG_ALERT
  | NGX_LOG_CRIT
  | NGX_LOG_ERR
  deriving DecidableEq

/-- The split options `mp4_split_options_t`; the handler reads only `hash`. -/
structure mp4_split_options_t where
  hash : String
  deriving DecidableEq

/-- The output chain `struct bucket_t`; the handler reads `content_length`
    and `first` (the head of the buffer chain, here a handle). -/
structure bucket_t where
  content_length : Int
  first : Nat
  deriving DecidableEq

/-- The file description `ngx_open_file_info_t` as `ngx_open_cached_file`
    leaves it. -/
structure ngx_open_file_info_t where
  err : Int
  is_file : Bool
  fd : Int
  size : Int
  mtime : Int
  deriving DecidableEq

/-- One entry of `r->headers_out.headers`. -/
structure ngx_table_elt_t where
  hash : Nat
  key : String
  value : String
  deriving DecidableEq

/-- The fields of the request that the handler writes. -/
structure Request where
  allow_ranges : Bool
  root_tested : Bool
  status : Int
  content_type : ngx_str_t
  content_type_len : Nat
  content_length_n : Int
  last_modified_time : Int
  headers : List ngx_table_elt_t
  log_action : Option String
  deriving DecidableEq

/-- A call of a collaborator, with the arguments that matter and the answer.
    A pointer to the options or to the bucket is `none` when it is NULL. -/
inductive Event
  | ngx_http_discard_request_body (rc : Int)
  | mp4_split_options_init (ret : Option mp4_split_options_t)
  | mp4_split_options_set (options : Option mp4_split_options_t) (args : List u_char) (ret : Int)
  | mp4_split_options_exit (options : Option mp4_split_options_t)
  | ngx_http_map_uri_to_path (reserved : Nat) (ok : Bool)
  | bucket_init (nonnull : Bool)
  | ngx_open_cached_file (name : List u_char) (rc : Int)
  | ngx_log_error (level : log_level) (msg : String)
  | ngx_close_file (rc : Int)
  | ngx_pcalloc (ok : Bool)
  | mp4_open (ok : Bool)
  | mp4_create_m3u8 (result : Int)
  | output_ts (options : Option mp4_split_options_t) (result : Int)
  | view_count (path : List u_char) (hash : Option String) (action : String)
  | mp4_close
  | ngx_list_push (ok : Bool)
  | ngx_http_send_header (status : Int) (rc : Int)
  | ngx_http_output_filter (chain : Nat) (rc : Int)
  deriving DecidableEq

/-- Everything the handler's run depends on: the request, and the answer of
    each collaborator (used only if the handler gets to call it). -/
structure Env where
  /-- The platform's `errno` values. -/
  errnos : Errnos
  /-- The field `r->method`. -/
  method : Nat
  /-- The field `r->uri` (never empty in nginx). -/
  uri : List u_char
  /-- The field `r->args`, the query string. -/
  args : List u_char
  /-- The flag `r->header_only`. -/
  header_only : Bool
  /-- The flag `r->error_page`. -/
  error_page : Bool
  /-- The request fields the handler may write, as they are on entry. -/
  r : Request
  /-- The flag `clcf->log_not_found`. -/
  log_not_found : Bool
  /-- Answer of `ngx_http_discard_request_body`. -/
  discard_rc : Int
  /-- Answer of `mp4_split_options_init`; `none` is NULL. -/
  options_init : Option mp4_split_options_t
  /-- Answer of `mp4_split_options_set`. -/
  options_set_ret : Int
  /-- The options as `mp4_split_options_set` leaves them. -/
  options_set : mp4_split_options_t
  /-- Does `ngx_http_map_uri_to_path` succeed. -/
  map_ok : Bool
  /-- The mapped path it stores in `path`: `data` is the buffer it allocated
      (the path, its NUL, and the reserved byte), `len` the size of that
      buffer. -/
  path : ngx_str_t
  /-- Answer of `bucket_init`, with the contents the generator leaves;
      `none` is NULL. -/
  bucket : Option bucket_t
  /-- Answer of `ngx_open_cached_file`. -/
  open_rc : Int
  /-- The description `of` it fills in. -/
  of : ngx_open_file_info_t
  /-- Answer of `ngx_close_file`. -/
  close_rc : Int
  /-- Does the allocation of the `ngx_file_t` succeed. -/
  file_alloc_ok : Bool
  /-- Does `mp4_open` return a context. -/
  mp4_open_ok : Bool
  /-- Answer of `mp4_create_m3u8`. -/
  m3u8_result : Int
  /-- Answer of `output_ts`. -/
  ts_result : Int
  /-- Does `ngx_list_push` return an element. -/
  list_push_ok : Bool
  /-- Answer of `ngx_http_send_header`. -/
  send_header_rc : Int
  /-- Answer of `ngx_http_output_filter`. -/
  output_filter_rc : Int
  /-- The constant `X_MOD_HLS_KEY` of the module header. -/
  X_MOD_HLS_KEY : String
  /-- The constant `X_MOD_HLS_VERSION` of the module header. -/
  X_MOD_HLS_VERSION : String

/-- How a run of the handler ends. -/
inductive Outcome
  /-- The handler returned this code. -/
  | returned (rc : Int)
  /-- The handler ran into undefined behaviour in the extension rewrite:
      `strcpy(NULL, ".mp4")`, or a store past the end of the path buffer. -/
  | undefined
  deriving DecidableEq

/-- A run of the handler: how it ended, the collaborator calls in order, and
    the request fields as it left them. -/
structure Result where
  outcome : Outcome
  trace : List Event
  r : Request
  deriving DecidableEq

/-- The calls `evs` happened, then the run `res`. -/
def Result.after (evs : List Event) (res : Result) : Result :=
  { res with trace := evs ++ res.trace }

/-- Source lines 202-232: the result is mapped to 415 or 200, and the header
    and the chain are sent when `result && bucket`. -/
def send_response (env : Env) (r : Request) (result : Int) : Result :=
  let result : Int := if result = 0 then 415 else 200
  let r := { r with root_tested := !env.error_page }
  if result ≠ 0 then
    match env.bucket with
    | some bucket =>
      let r := { r with
        log_action := some "sending mp4 to client"
        status := NGX_HTTP_OK
        content_length_n := bucket.content_length
        last_modified_time := env.of.mtime }
      if !env.list_push_ok then
        ⟨Outcome.returned NGX_HTTP_INTERNAL_SERVER_ERROR, [Event.ngx_list_push false], r⟩
      else
        let r := { r with
          headers := r.headers ++ [⟨1, env.X_MOD_HLS_KEY, env.X_MOD_HLS_VERSION⟩] }
        let rc := env.send_header_rc
        if rc = NGX_ERROR ∨ rc > NGX_OK ∨ env.header_only then
          ⟨Outcome.returned rc,
            [Event.ngx_list_push true, Event.ngx_http_send_header r.status rc,
             Event.ngx_log_error log_level.NGX_LOG_ALERT "close()ngx_http_send_header failed"], r⟩
        else
          ⟨Outcome.returned env.output_filter_rc,
            [Event.ngx_list_push true, Event.ngx_http_send_header r.status rc,
             Event.ngx_http_output_filter bucket.first env.output_filter_rc], r⟩
    | none => ⟨Outcome.returned NGX_HTTP_UNSUPPORTED_MEDIA_TYPE, [], r⟩
  else ⟨Outcome.returned NGX_HTTP_UNSUPPORTED_MEDIA_TYPE, [], r⟩

/-- Source lines 176-200: the generator is chosen by the flag `m3u8`; then
    the context is closed and the options are released. -/
def generate (env : Env) (r : Request) (options : Option mp4_split_options_t)
    (path : ngx_str_t) (m3u8 : Bool) : Result :=
  if m3u8 then
    let result := env.m3u8_result
    let counted : List Event :=
      if result ≠ 0 then
        [Event.view_count (c_str path.data) (options.map (·.hash))
          ("ios_playlist&segments=" ++ toString result)]
      else []
    let r := { r with
      allow_ranges := false
      content_type := { data := c_lit "application/vnd.apple.mpegurl", len := 29 }
      content_type_len := 29 }
    (send_response env r result).after
      ([Event.mp4_create_m3u8 result] ++ counted ++
        [Event.mp4_close, Event.mp4_split_options_exit options])
  else
    let result := env.ts_result
    match options with
    | none =>
      ⟨Outcome.returned NGX_HTTP_INTERNAL_SERVER_ERROR,
        [Event.output_ts none result, Event.mp4_close,
         Event.ngx_log_error log_level.NGX_LOG_ALERT "output_ts failed"], r⟩
    | some o =>
      if result = 0 then
        ⟨Outcome.returned NGX_HTTP_INTERNAL_SERVER_ERROR,
          [Event.output_ts (some o) result, Event.mp4_close,
           Event.ngx_log_error log_level.NGX_LOG_ALERT "output_ts failed"], r⟩
      else
        let r := { r with allow_ranges := true }
        (send_response env r result).after
          [Event.output_ts (some o) result,
           Event.view_count (c_str path.data) (some o.hash) "ios_view",
           Event.mp4_close, Event.mp4_split_options_exit (some o)]

/-- The `switch(of.err)` of source lines 124-141: the severity and the
    status chosen for an error code; `none` is `case 0`, which returns 500 at
    once. -/
def open_error (e : Errnos) (err : Int) : Option (log_level × Int) :=
  if err = 0 then none
  else if err = e.NGX_ENOENT ∨ err = e.NGX_ENOTDIR ∨ err = e.NGX_ENAMETOOLONG then
    some (log_level.NGX_LOG_ERR, NGX_HTTP_NOT_FOUND)
  else if err = e.NGX_EACCES then
    some (log_level.NGX_LOG_ERR, NGX_HTTP_FORBIDDEN)
  else
    some (log_level.NGX_LOG_CRIT, NGX_HTTP_INTERNAL_SERVER_ERROR)

/-- Source lines 122-174: the file is opened through the open-file cache, it
    must be a regular file, and the MP4 context is opened on it. -/
def open_file (env : Env) (options : Option mp4_split_options_t)
    (path : ngx_str_t) (m3u8 : Bool) : Result :=
  let opened := Event.ngx_open_cached_file (c_str path.data) env.open_rc
  if env.open_rc ≠ NGX_OK then
    let exit := Event.mp4_split_options_exit options
    match open_error env.errnos env.of.err with
    | none => ⟨Outcome.returned NGX_HTTP_INTERNAL_SERVER_ERROR, [opened, exit], env.r⟩
    | some (level, rc) =>
      if rc ≠ NGX_HTTP_NOT_FOUND ∨ env.log_not_found then
        ⟨Outcome.returned rc,
          [opened, exit, Event.ngx_log_error level "open() failed"], env.r⟩
      else
        ⟨Outcome.returned rc, [opened, exit], env.r⟩
  else if !env.of.is_file then
    let closed : List Event :=
      if env.close_rc = NGX_FILE_ERROR then
        [Event.ngx_close_file env.close_rc,
         Event.ngx_log_error log_level.NGX_LOG_ALERT "close() failed"]
      else [Event.ngx_close_file env.close_rc]
    ⟨Outcome.returned NGX_DECLINED,
      [opened, Event.mp4_split_options_exit options] ++ closed, env.r⟩
  else if !env.file_alloc_ok then
    ⟨Outcome.returned NGX_HTTP_INTERNAL_SERVER_ERROR,
      [opened, Event.ngx_pcalloc false, Event.mp4_split_options_exit options], env.r⟩
  else if !env.mp4_open_ok then
    ⟨Outcome.returned NGX_HTTP_INTERNAL_SERVER_ERROR,
      [opened, Event.ngx_pcalloc true, Event.mp4_open false,
       Event.mp4_split_options_exit options,
       Event.ngx_log_error log_level.NGX_LOG_ALERT "mp4_open failed"], env.r⟩
  else
    (generate env env.r options path m3u8).after
      [opened, Event.ngx_pcalloc true, Event.mp4_open true]

/-- Source lines 94-107: the bucket is created, the request is classified by
    `ngx_strstr(path.data, "m3u8")`, and the extension is rewritten. -/
def classify_and_rewrite (env : Env) (options : Option mp4_split_options_t) : Result :=
  let m3u8 : Bool := (ngx_strstr env.path.data (c_lit "m3u8")).isSome
  match rewrite_ext env.path.len env.path with
  | none => ⟨Outcome.undefined, [Event.bucket_init env.bucket.isSome], env.r⟩
  | some path =>
    (open_file env options path m3u8).after [Event.bucket_init env.bucket.isSome]

/-- Source lines 80-82: the options object the handler holds once
    `mp4_split_options_init` and, for a non-empty query string,
    `mp4_split_options_set` have run; `none` is the NULL pointer. -/
def options_in_use (env : Env) : Option mp4_split_options_t :=
  if env.args.length ≠ 0 then env.options_init.map (fun _ => env.options_set)
  else env.options_init

/-- Source lines 87-92: the NULL check on the options, then the mapping of
    the URI to a path with one reserved byte. -/
def map_path (env : Env) : Result :=
  match options_in_use env with
  | none => ⟨Outcome.returned NGX_DECLINED, [], env.r⟩
  | some o =>
    if !env.map_ok then
      ⟨Outcome.returned NGX_HTTP_INTERNAL_SERVER_ERROR,
        [Event.ngx_http_map_uri_to_path 1 false, Event.mp4_split_options_exit (some o)], env.r⟩
    else
      (classify_and_rewrite env (some o)).after [Event.ngx_http_map_uri_to_path 1 true]

/-- The function `ngx_streaming_handler(r)`, source lines 61-233. -/
def ngx_streaming_handler (env : Env) : Result :=
  if env.method &&& (NGX_HTTP_GET ||| NGX_HTTP_HEAD) = 0 then
    ⟨Outcome.returned NGX_HTTP_NOT_ALLOWED, [], env.r⟩
  else if env.uri.getLast? = some 47 then
    ⟨Outcome.returned NGX_DECLINED, [], env.r⟩
  else if env.discard_rc ≠ NGX_OK then
    ⟨Outcome.returned env.discard_rc,
      [Event.ngx_http_discard_request_body env.discard_rc], env.r⟩
  else
    let start : List Event :=
      [Event.ngx_http_discard_request_body env.discard_rc,
       Event.mp4_split_options_init env.options_init]
    -- `r->args.len && !mp4_split_options_set(r, options, ...)`: the call is
    -- made for a non-empty query string, on whatever the init returned
    if env.args.length ≠ 0 then
      let set := Event.mp4_split_options_set env.options_init env.args env.options_set_ret
      if env.options_set_ret = 0 then
        ⟨Outcome.returned NGX_DECLINED,
          start ++ [set, Event.mp4_split_options_exit (options_in_use env)], env.r⟩
      else
        (map_path env).after (start ++ [set])
    else
      (map_path env).after start

/-! ## Observations on a run -/

/-- Calls the handler makes before it opens the file. -/
def Event.before_open : Event → Bool
  | Event.ngx_http_discard_request_body _ => true
  | Event.mp4_split_options_init _ => true
  | Event.mp4_split_options_set _ _ _ => true
  | Event.mp4_split_options_exit _ => true
  | Event.ngx_http_map_uri_to_path _ _ => true
  | Event.bucket_init _ => true
  | _ => false

/-- Calls that can occur in a run that does not get to a generator. -/
def Event.before_generation : Event → Bool
  | Event.ngx_open_cached_file _ _ => true
  | Event.ngx_log_error _ _ => true
  | Event.ngx_close_file _ => true
  | Event.ngx_pcalloc _ => true
  | Event.mp4_open ok => !ok
  | e => e.before_open

/-- Calls that occur from the generation step on. -/
def Event.from_generation : Event → Bool
  | Event.mp4_create_m3u8 _ => true
  | Event.output_ts _ _ => true
  | Event.view_count _ _ _ => true
  | Event.mp4_close => true
  | Event.mp4_split_options_exit _ => true
  | Event.ngx_log_error _ _ => true
  | Event.ngx_list_push _ => true
  | Event.ngx_http_send_header _ _ => true
  | Event.ngx_http_output_filter _ _ => true
  | _ => false

/-- A call of one of the two generators, `mp4_create_m3u8` or `output_ts`. -/
def Event.is_generator : Event → Bool
  | Event.mp4_create_m3u8 _ => true
  | Event.output_ts _ _ => true
  | _ => false

/-- A call of `view_count`. -/
def Event.is_view_count : Event → Bool
  | Event.view_count _ _ _ => true
  | _ => false

/-- A call of `mp4_open`. -/
def Event.is_mp4_open : Event → Bool
  | Event.mp4_open _ => true
  | _ => false

/-- A call of `mp4_split_options_exit`. -/
def Event.is_options_exit : Event → Bool
  | Event.mp4_split_options_exit _ => true
  | _ => false

/-- A call of `ngx_log_error`. -/
def Event.is_log : Event → Bool
  | Event.ngx_log_error _ _ => true
  | _ => false

/-- A call of `mp4_close`. -/
def Event.is_mp4_close : Event → Bool
  | Event.mp4_close => true
  | _ => false

/-- The run reaches generation: `mp4_open` was called and returned a context
    (source line 169), so line 176 is reached. -/
def reaches_generation (env : Env) : Prop :=
  Event.mp4_open true ∈ (ngx_streaming_handler env).trace

/-- The run reaches the response step (source lines 202-232): the calls of
    lines 199-200, `mp4_close` and then `mp4_split_options_exit`, were made. -/
def reaches_response (env : Env) : Prop :=
  [Event.mp4_close, Event.mp4_split_options_exit (options_in_use env)] <:+:
    (ngx_streaming_handler env).trace

/-- One of the steps in front of the generation step does not succeed: the
    method test (source line 69), the test for a trailing '/' (72),
    `ngx_http_discard_request_body` (75-78), `mp4_split_options_set` (82),
    the NULL test on the options (87), `ngx_http_map_uri_to_path` (89), the
    extension rewrite (102-106), `ngx_open_cached_file` (122), the test for a
    regular file (151), the allocation of the `ngx_file_t` (160-161), or
    `mp4_open` (169-170). -/
def earlier_step_fails (env : Env) : Prop :=
  env.method &&& (NGX_HTTP_GET ||| NGX_HTTP_HEAD) = 0 ∨
  env.uri.getLast? = some 47 ∨
  env.discard_rc ≠ NGX_OK ∨
  (env.args.length ≠ 0 ∧ env.options_set_ret = 0) ∨
  options_in_use env = none ∨
  env.map_ok = false ∨
  rewrite_ext env.path.len env.path = none ∨
  env.open_rc ≠ NGX_OK ∨
  env.of.is_file = false ∨
  env.file_alloc_ok = false ∨
  env.mp4_open_ok = false

instance (env : Env) : Decidable (earlier_step_fails env) := by
  unfold earlier_step_fails
  infer_instance

instance (env : Env) : Decidable (reaches_generation env) :=
  inferInstanceAs (Decidable (Event.mp4_open true ∈ (ngx_streaming_handler env).trace))

instance (env : Env) : Decidable (reaches_response env) :=
  inferInstanceAs (Decidable
    ([Event.mp4_close, Event.mp4_split_options_exit (options_in_use env)] <:+:
      (ngx_streaming_handler env).trace))

instance (e : Errnos) : Decidable e.distinct := by
  unfold Errnos.distinct
  infer_instance

/-! ## The configuration merge in the words of the specification -/

/-- A length or count setting as the specification reads it: unset, or set to
    a number. -/
def uint_setting (v : Nat) : Option Nat :=
  if v = NGX_CONF_UNSET_UINT then none else some v

/-- A flag setting as the specification reads it. -/
def flag_setting (v : Int) : Option Int :=
  if v = NGX_CONF_UNSET then none else some v

/-- A size setting as the specification reads it. -/
def size_setting (v : Nat) : Option Nat :=
  if v = NGX_CONF_UNSET_SIZE then none else some v

/-- The effective value in the words of the specification: the child's value
    if set, else the parent's value if set, else the default. -/
def spec_effective {α : Type} (child parent : Option α) (dflt : α) : α :=
  match child, parent with
  | some c, _ => c
  | none, some p => p
  | none, none => dflt

/-! ## Sample requests -/

/-- The response fields of a request on entry to the handler: nothing is
    filled in yet. -/
def fresh_request : Request :=
  { allow_ranges := false, root_tested := false, status := 0,
    content_type := { len := 0, data := [] }, content_type_len := 0,
    content_length_n := -1, last_modified_time := -1, headers := [], log_action := none }

/-- A segment request, `GET /hls/clip.ts?video=1` under the root `/srv`,
    for which every collaborator succeeds. -/
def segment_env : Env :=
  { errnos := linux_errnos, method := NGX_HTTP_GET, uri := bytes "/hls/clip.ts",
    args := bytes "video=1", header_only := false, error_page := false,
    r := fresh_request, log_not_found := true, discard_rc := 0,
    options_init := some ⟨""⟩, options_set_ret := 1, options_set := ⟨"h1"⟩,
    map_ok := true, path := { len := 18, data := c_lit "/srv/hls/clip.ts" ++ [0] },
    bucket := some ⟨1880, 7⟩, open_rc := 0,
    of := { err := 0, is_file := true, fd := 3, size := 4096, mtime := 1000 },
    close_rc := 0, file_alloc_ok := true, mp4_open_ok := true, m3u8_result := 0,
    ts_result := 1, list_push_ok := true, send_header_rc := 0, output_filter_rc := 0,
    X_MOD_HLS_KEY := "X-Mod-HLS", X_MOD_HLS_VERSION := "1" }

/-- A playlist request, `GET /hls/clip.m3u8` without a query string, for which
    every collaborator succeeds and the playlist has 3 segments. -/
def playlist_env : Env :=
  { segment_env with
    uri := bytes "/hls/clip.m3u8", args := [], options_init := some ⟨"h0"⟩,
    path := { len := 20, data := c_lit "/srv/hls/clip.m3u8" ++ [0] }, m3u8_result := 3 }

/-- The segment request when `output_ts` returns 0. -/
def failed_segment_env : Env := { segment_env with ts_result := 0 }

/-- The playlist request when `mp4_create_m3u8` returns 0. -/
def empty_playlist_env : Env := { playlist_env with m3u8_result := 0 }

/-- The playlist request when `mp4_create_m3u8` returns 0 and `bucket_init`
    returned NULL. -/
def empty_playlist_no_bucket_env : Env :=
  { playlist_env with m3u8_result := 0, bucket := none }

/-- The segment request when the file does not exist: `ngx_open_cached_file`
    fails with `of.err = ENOENT`. -/
def missing_file_env : Env :=
  { segment_env with
    open_rc := NGX_ERROR,
    of := { err := 2, is_file := false, fd := -1, size := 0, mtime := 0 } }

/-- The segment request when `ngx_open_cached_file` fails and leaves
    `of.err` at 0. -/
def open_failed_no_errno_env : Env :=
  { segment_env with
    open_rc := NGX_ERROR,
    of := { err := 0, is_file := false, fd := -1, size := 0, mtime := 0 } }

/-- The segment request when the path names a directory: the open succeeds
    and `of.is_file` is 0. -/
def directory_env : Env :=
  { segment_env with
    of := { err := 0, is_file := false, fd := 3, size := 4096, mtime := 1000 } }

/-- The segment request when the allocation of the `ngx_file_t` fails. -/
def no_memory_env : Env := { segment_env with file_alloc_ok := false }

/-- The segment request when `mp4_open` returns NULL. -/
def bad_mp4_env : Env := { segment_env with mp4_open_ok := false }

/-- The segment request when `ngx_http_map_uri_to_path` fails. -/
def unmapped_env : Env := { segment_env with map_ok := false }

/-- A request for a name with a one-byte extension, `GET /hls/clip.x?video=1`
    under the root `/srv`: the mapped path has 15 bytes, its buffer 17. -/
def short_extension_env : Env :=
  { segment_env with
    uri := bytes "/hls/clip.x",
    path := { len := 17, data := c_lit "/srv/hls/clip.x" ++ [0] } }

/-- The segment request when `mp4_split_options_init` returns NULL. -/
def null_options_env : Env := { segment_env with options_init := none }

/-- The segment request when `mp4_split_options_init` returns NULL and
    `mp4_split_options_set` then returns 0. -/
def null_options_set_fails_env : Env :=
  { segment_env with options_init := none, options_set_ret := 0 }


/-! ## Facts about the C string helpers -/

theorem c_str_no_nul (d : List u_char) : ∀ b ∈ c_str d, b ≠ 0 := by
  induction d with
  | nil => simp [c_str]
  | cons x xs ih =>
    intro b hb
    by_cases hx : x = 0
    · simp [c_str, hx] at hb
    · simp only [c_str, hx, if_false, List.mem_cons] at hb
      rcases hb with rfl | hb
      · exact hx
      · exact ih b hb

theorem c_str_append_nul (a rest : List u_char) (ha : ∀ b ∈ a, b ≠ 0) :
    c_str (a ++ 0 :: rest) = a := by
  induction a with
  | nil => simp [c_str]
  | cons x xs ih =>
    have hx : x ≠ 0 := ha x (List.mem_cons_self _ _)
    have hxs : ∀ b ∈ xs, b ≠ 0 := fun b hb => ha b (List.mem_cons_of_mem _ hb)
    simp [c_str, hx, ih hxs]

theorem c_str_split (a b d : List u_char) (h : c_str d = a ++ b) :
    ∃ rest, d = a ++ rest ∧ c_str rest = b := by
  induction a generalizing d with
  | nil => exact ⟨d, by simp, by simpa using h⟩
  | cons x xs ih =>
    cases d with
    | nil => simp [c_str] at h
    | cons y ys =>
      by_cases hy : y = 0
      · simp [c_str, hy] at h
      · simp only [c_str, hy, if_false, List.cons_append, List.cons.injEq] at h
        obtain ⟨rest, h1, h2⟩ := ih ys h.2
        exact ⟨rest, by simp [h.1, h1], h2⟩

theorem strrchr_scan_absent (c : u_char) (l : List u_char) (i : Nat) (last : Option Nat)
    (h : c ∉ l) : strrchr_scan c l i last = last := by
  induction l generalizing i last with
  | nil => rfl
  | cons x xs ih =>
    simp only [List.mem_cons, not_or] at h
    have hx : ¬ x = c := fun e => h.1 e.symm
    simp [strrchr_scan, hx, ih _ _ h.2]

theorem strrchr_scan_last (c : u_char) (pre post : List u_char) (i : Nat) (last : Option Nat)
    (h : c ∉ post) : strrchr_scan c (pre ++ c :: post) i last = some (i + pre.length) := by
  induction pre generalizing i last with
  | nil => simp [strrchr_scan, strrchr_scan_absent c post _ _ h]
  | cons x xs ih =>
    have e : i + 1 + xs.length = i + (xs.length + 1) := by omega
    show strrchr_scan c (xs ++ c :: post) (i + 1) _ = _
    rw [ih, List.length_cons, e]

theorem last_occurrence (c : u_char) (l : List u_char) (h : c ∈ l) :
    ∃ pre post, l = pre ++ c :: post ∧ c ∉ post := by
  induction l with
  | nil => simp at h
  | cons x xs ih =>
    by_cases hxs : c ∈ xs
    · obtain ⟨pre, post, h1, h2⟩ := ih hxs
      exact ⟨x :: pre, post, by simp [h1], h2⟩
    · have hx : c = x := by
        rcases List.mem_cons.mp h with e | e
        · exact e
        · exact absurd e hxs
      exact ⟨[], xs, by simp [hx], hxs⟩

theorem strrchr_none_iff (s : List u_char) (c : u_char) :
    strrchr s c = none ↔ c ∉ c_str s := by
  constructor
  · intro h hc
    obtain ⟨pre, post, h1, h2⟩ := last_occurrence c _ hc
    simp [strrchr, h1, strrchr_scan_last c pre post 0 none h2] at h
  · intro h
    simp [strrchr, strrchr_scan_absent c _ 0 none h]

theorem strcpy_at (size : Nat) (pre rest src : List u_char)
    (h : pre.length + (c_str src).length + 1 ≤ size) :
    strcpy size (pre ++ rest) pre.length src =
      some (pre ++ (c_str src ++ [0]) ++ rest.drop ((c_str src).length + 1)) := by
  unfold strcpy
  rw [if_pos h, List.take_left, Nat.add_assoc, List.drop_append]

theorem poke_at (size : Nat) (pre rest : List u_char) (x b : u_char)
    (h : pre.length < size) :
    poke size (pre ++ x :: rest) pre.length b = some (pre ++ b :: rest) := by
  unfold poke
  rw [if_pos h, List.take_left, List.drop_append]
  simp

theorem get_at (pre rest : List u_char) (x : u_char) :
    (pre ++ x :: rest).get? pre.length = some x := by
  induction pre with
  | nil => rfl
  | cons y ys ih => simpa using ih

theorem rewrite_ext_eval (size : Nat) (pre post rest : List u_char) (n : Nat)
    (h1 : c_str (pre ++ rest) = pre ++ 46 :: post) (h2 : 46 ∉ post)
    (hsize : pre.length + 5 ≤ size) :
    rewrite_ext size ⟨n, pre ++ rest⟩ =
      some ⟨pre.length + 4, pre ++ [46, 109, 112, 52, 0] ++ rest.drop 5⟩ := by
  have hs : strrchr (pre ++ rest) 46 = some pre.length := by
    simp [strrchr, h1, strrchr_scan_last 46 pre post 0 none h2]
  have hl : c_str (c_lit ".mp4") = [46, 109, 112, 52] := by decide
  have hc := strcpy_at size pre rest (c_lit ".mp4") (by rw [hl]; exact hsize)
  rw [hl] at hc
  have hp : poke size ((pre ++ [46, 109, 112, 52]) ++ 0 :: rest.drop 5)
      (pre ++ [46, 109, 112, 52]).length 0 =
        some ((pre ++ [46, 109, 112, 52]) ++ 0 :: rest.drop 5) :=
    poke_at size _ _ 0 0 (by
      simp only [List.length_append, List.length_cons, List.length_nil]
      omega)
  simp only [List.length_append, List.length_cons, List.length_nil, List.append_assoc,
    List.cons_append, List.nil_append] at hp hc
  simp only [rewrite_ext, hs, hc, hp]
  simp

theorem rewrite_ext_overrun (size : Nat) (pre post rest : List u_char) (n : Nat)
    (h1 : c_str (pre ++ rest) = pre ++ 46 :: post) (h2 : 46 ∉ post)
    (hsize : size < pre.length + 5) :
    rewrite_ext size ⟨n, pre ++ rest⟩ = none := by
  have hs : strrchr (pre ++ rest) 46 = some pre.length := by
    simp [strrchr, h1, strrchr_scan_last 46 pre post 0 none h2]
  have hl : c_str (c_lit ".mp4") = [46, 109, 112, 52] := by decide
  have hc : strcpy size (pre ++ rest) pre.length (c_lit ".mp4") = none := by
    unfold strcpy
    rw [if_neg]
    rw [hl]
    simp only [List.length_cons, List.length_nil]
    omega
  simp only [rewrite_ext, hs, hc]

/-- The extension rewrite, in general.  It is defined exactly when the path
    holds a '.' (byte 46) and the five bytes stored from the last '.' on fit
    the buffer.  Then, with the path split at its last '.' into `pre`, the dot
    and `post`: the new path is `pre` followed by ".mp4", `path.len` is the
    index of the dot plus 4, the byte at `path.len` is NUL, the new length
    minus the old C string length is 3 minus the length of `post`, and a
    second rewrite (same buffer) changes nothing. -/
theorem rewrite_ext_in_bounds (size : Nat) (path : ngx_str_t) :
    (46 ∉ c_str path.data → rewrite_ext size path = none) ∧
    (∀ pre post, c_str path.data = pre ++ 46 :: post → 46 ∉ post →
      (size < pre.length + 5 → rewrite_ext size path = none) ∧
      (pre.length + 5 ≤ size →
        ∃ p, rewrite_ext size path = some p ∧
          c_str p.data = pre ++ bytes ".mp4" ∧
          p.len = pre.length + 4 ∧
          p.data.get? p.len = some 0 ∧
          ((p.len : Int) - ((c_str path.data).length : Int) = 3 - (post.length : Int)) ∧
          rewrite_ext size p = some p)) := by
  constructor
  · intro h
    have := (strrchr_none_iff path.data 46).mpr h
    simp [rewrite_ext, this]
  · intro pre post h1 h2
    obtain ⟨rest, h3, -⟩ := c_str_split pre (46 :: post) path.data h1
    have hpre : ∀ b ∈ pre, b ≠ 0 := fun b hb =>
      c_str_no_nul path.data b (by rw [h1]; exact List.mem_append_left _ hb)
    obtain ⟨n, data⟩ := path
    simp only at h1 h3
    subst h3
    constructor
    · exact rewrite_ext_overrun size pre post rest n h1 h2
    · intro hsize
      have hfirst := rewrite_ext_eval size pre post rest n h1 h2 hsize
      have hc : c_str (pre ++ [46, 109, 112, 52, 0] ++ rest.drop 5) =
          pre ++ [46, 109, 112, 52] := by
        have := c_str_append_nul (pre ++ [46, 109, 112, 52]) (rest.drop 5)
          (by
            intro b hb
            rcases List.mem_append.mp hb with hb | hb
            · exact hpre b hb
            · simp only [List.mem_cons, List.mem_singleton, List.not_mem_nil, or_false] at hb
              rcases hb with e | e | e | e <;> simp [e])
        simpa using this
      refine ⟨_, hfirst, ?_, rfl, ?_, ?_, ?_⟩
      · rw [hc]; rfl
      · have := get_at (pre ++ [46, 109, 112, 52]) (rest.drop 5) 0
        simpa using this
      · rw [h1]; simp; omega
      · have := rewrite_ext_eval size pre [109, 112, 52]
          ([46, 109, 112, 52, 0] ++ rest.drop 5) (pre.length + 4) (by simpa using hc)
          (by decide) hsize
        simpa using this


/-! ## Facts about the stages of the handler -/

@[simp] theorem after_trace (evs : List Event) (res : Result) :
    (res.after evs).trace = evs ++ res.trace := rfl

@[simp] theorem after_outcome (evs : List Event) (res : Result) :
    (res.after evs).outcome = res.outcome := rfl

@[simp] theorem after_r (evs : List Event) (res : Result) :
    (res.after evs).r = res.r := rfl

theorem after_after (a b : List Event) (res : Result) :
    (res.after a).after b = res.after (b ++ a) := by
  simp [Result.after]

theorem map_path_split (env : Env) :
    (∀ e ∈ (map_path env).trace, e.before_open = true) ∨
    (env.map_ok = true ∧
    ∃ o p pre, options_in_use env = some o ∧ rewrite_ext env.path.len env.path = some p ∧
      (∀ e ∈ pre, e.before_open = true) ∧
      map_path env =
        (open_file env (some o) p
          (ngx_strstr env.path.data (c_lit "m3u8")).isSome).after pre) := by
  unfold map_path
  cases ho : options_in_use env with
  | none => left; simp
  | some o =>
    by_cases h5 : env.map_ok = true
    · cases hr : rewrite_ext env.path.len env.path with
      | none => left; simp [h5, classify_and_rewrite, hr, Event.before_open]
      | some p =>
        right
        refine ⟨h5, o, p, [Event.ngx_http_map_uri_to_path 1 true,
          Event.bucket_init env.bucket.isSome], rfl, rfl, ?_, ?_⟩
        · simp [Event.before_open]
        · simp [h5, classify_and_rewrite, hr, after_after]
    · left; simp [h5, Event.before_open]

theorem handler_to_open (env : Env) :
    (∀ e ∈ (ngx_streaming_handler env).trace, e.before_open = true) ∨
    ((¬ env.method &&& (NGX_HTTP_GET ||| NGX_HTTP_HEAD) = 0 ∧
      ¬ env.uri.getLast? = some 47 ∧ ¬ env.discard_rc ≠ NGX_OK ∧
      ¬ (env.args.length ≠ 0 ∧ env.options_set_ret = 0) ∧ env.map_ok = true) ∧
    ∃ o p pre, options_in_use env = some o ∧ rewrite_ext env.path.len env.path = some p ∧
      (∀ e ∈ pre, e.before_open = true) ∧
      ngx_streaming_handler env =
        (open_file env (some o) p
          (ngx_strstr env.path.data (c_lit "m3u8")).isSome).after pre) := by
  have lift : ∀ start : List Event, (∀ e ∈ start, e.before_open = true) →
      ((∀ e ∈ ((map_path env).after start).trace, e.before_open = true) ∨
      (env.map_ok = true ∧
      ∃ o p pre, options_in_use env = some o ∧ rewrite_ext env.path.len env.path = some p ∧
        (∀ e ∈ pre, e.before_open = true) ∧
        (map_path env).after start =
          (open_file env (some o) p (ngx_strstr env.path.data (c_lit "m3u8")).isSome).after
            pre)) := by
    intro start hstart
    rcases map_path_split env with h | ⟨hm, o, p, pre, h1, h2, h3, h4⟩
    · left
      intro e he
      rcases List.mem_append.mp he with he | he
      · exact hstart e he
      · exact h e he
    · right
      refine ⟨hm, o, p, start ++ pre, h1, h2, ?_, ?_⟩
      · intro e he
        rcases List.mem_append.mp he with he | he
        · exact hstart e he
        · exact h3 e he
      · rw [h4, after_after]
  by_cases h1 : env.method &&& (NGX_HTTP_GET ||| NGX_HTTP_HEAD) = 0
  · left; simp [ngx_streaming_handler, h1]
  by_cases h2 : env.uri.getLast? = some 47
  · left; simp [ngx_streaming_handler, h1, h2]
  by_cases h3 : env.discard_rc ≠ NGX_OK
  · left; simp [ngx_streaming_handler, h1, h2, h3, Event.before_open]
  by_cases ha : env.args.length ≠ 0
  · by_cases hs : env.options_set_ret = 0
    · left
      simp [ngx_streaming_handler, h1, h2, h3, ha, hs, Event.before_open]
    · have e : ngx_streaming_handler env = (map_path env).after
          ([Event.ngx_http_discard_request_body env.discard_rc,
            Event.mp4_split_options_init env.options_init] ++
           [Event.mp4_split_options_set env.options_init env.args env.options_set_ret]) := by
        simp [ngx_streaming_handler, h1, h2, h3, ha, hs]
      rw [e]
      rcases lift ([Event.ngx_http_discard_request_body env.discard_rc,
            Event.mp4_split_options_init env.options_init] ++
           [Event.mp4_split_options_set env.options_init env.args env.options_set_ret])
          (by simp [Event.before_open]) with h | ⟨hm, h⟩
      · exact Or.inl h
      · exact Or.inr ⟨⟨h1, h2, h3, fun hc => hs hc.2, hm⟩, h⟩
  · have e : ngx_streaming_handler env = (map_path env).after
        [Event.ngx_http_discard_request_body env.discard_rc,
          Event.mp4_split_options_init env.options_init] := by
      simp [ngx_streaming_handler, h1, h2, h3, ha]
    rw [e]
    rcases lift [Event.ngx_http_discard_request_body env.discard_rc,
          Event.mp4_split_options_init env.options_init]
        (by simp [Event.before_open]) with h | ⟨hm, h⟩
    · exact Or.inl h
    · exact Or.inr ⟨⟨h1, h2, h3, fun hc => ha hc.1, hm⟩, h⟩


theorem open_file_failed (env : Env) (o : Option mp4_split_options_t) (p : ngx_str_t)
    (m3u8 : Bool) (h : env.open_rc ≠ NGX_OK) :
    open_file env o p m3u8 =
      match open_error env.errnos env.of.err with
      | none =>
        ⟨Outcome.returned NGX_HTTP_INTERNAL_SERVER_ERROR,
          [Event.ngx_open_cached_file (c_str p.data) env.open_rc,
           Event.mp4_split_options_exit o], env.r⟩
      | some (level, rc) =>
        if rc ≠ NGX_HTTP_NOT_FOUND ∨ env.log_not_found then
          ⟨Outcome.returned rc,
            [Event.ngx_open_cached_file (c_str p.data) env.open_rc,
             Event.mp4_split_options_exit o,
             Event.ngx_log_error level "open() failed"], env.r⟩
        else
          ⟨Outcome.returned rc,
            [Event.ngx_open_cached_file (c_str p.data) env.open_rc,
             Event.mp4_split_options_exit o], env.r⟩ := by
  unfold open_file
  rw [if_pos h]

theorem open_file_split (env : Env) (o : Option mp4_split_options_t) (p : ngx_str_t)
    (m3u8 : Bool) :
    (∀ e ∈ (open_file env o p m3u8).trace, e.before_generation = true) ∨
    ((env.open_rc = NGX_OK ∧ env.of.is_file = true ∧ env.file_alloc_ok = true ∧
        env.mp4_open_ok = true) ∧
      open_file env o p m3u8 = (generate env env.r o p m3u8).after
        [Event.ngx_open_cached_file (c_str p.data) env.open_rc, Event.ngx_pcalloc true,
         Event.mp4_open true]) := by
  by_cases h1 : env.open_rc ≠ NGX_OK
  · left
    rw [open_file_failed env o p m3u8 h1]
    cases open_error env.errnos env.of.err with
    | none => simp [Event.before_generation, Event.before_open]
    | some lr =>
      obtain ⟨level, rc⟩ := lr
      by_cases hl : rc ≠ NGX_HTTP_NOT_FOUND ∨ env.log_not_found = true <;>
        simp [hl, Event.before_generation, Event.before_open]
  · simp only [open_file, h1, if_false]
    by_cases hf : env.of.is_file = true
    · by_cases hm : env.file_alloc_ok = true
      · by_cases hc : env.mp4_open_ok = true
        · right
          refine ⟨⟨not_not.mp h1, hf, hm, hc⟩, ?_⟩
          simp [hf, hm, hc]
        · left; simp [hf, hm, hc, Event.before_generation, Event.before_open]
      · left; simp [hf, hm, Event.before_generation, Event.before_open]
    · left
      by_cases hx : env.close_rc = NGX_FILE_ERROR <;>
        simp [hf, hx, Event.before_generation, Event.before_open]

theorem before_open_generation (e : Event) (h : e.before_open = true) :
    e.before_generation = true := by
  cases e <;> simp_all [Event.before_generation, Event.before_open]

theorem handler_split (env : Env) :
    (∀ e ∈ (ngx_streaming_handler env).trace, e.before_generation = true) ∨
    (¬ earlier_step_fails env ∧
    ∃ o p pre, options_in_use env = some o ∧ rewrite_ext env.path.len env.path = some p ∧
      (∀ e ∈ pre, e.before_generation = true) ∧
      ngx_streaming_handler env =
        (generate env env.r (some o) p (ngx_strstr env.path.data (c_lit "m3u8")).isSome).after
          (pre ++ [Event.mp4_open true])) := by
  rcases handler_to_open env with h | ⟨⟨e1, e2, e3, e4, e5⟩, o, p, pre, h1, h2, h3, h4⟩
  · left
    exact fun e he => before_open_generation e (h e he)
  · rcases open_file_split env (some o) p (ngx_strstr env.path.data (c_lit "m3u8")).isSome with
      h | ⟨⟨f1, f2, f3, f4⟩, h5⟩
    · left
      intro e he
      rw [h4] at he
      rcases List.mem_append.mp he with he | he
      · exact before_open_generation e (h3 e he)
      · exact h e he
    · right
      refine ⟨?_, o, p, pre ++ [Event.ngx_open_cached_file (c_str p.data) env.open_rc,
        Event.ngx_pcalloc true], h1, h2, ?_, ?_⟩
      · unfold earlier_step_fails
        rintro (c | c | c | c | c | c | c | c | c | c | c)
        · exact e1 c
        · exact e2 c
        · exact e3 c
        · exact e4 c
        · rw [h1] at c; cases c
        · rw [e5] at c; cases c
        · rw [h2] at c; cases c
        · exact c f1
        · rw [f2] at c; cases c
        · rw [f3] at c; cases c
        · rw [f4] at c; cases c
      · intro e he
        simp only [List.mem_append, List.mem_cons, List.mem_singleton, List.not_mem_nil,
          or_false] at he
        rcases he with he | rfl | rfl
        · exact before_open_generation e (h3 e he)
        · rfl
        · rfl
      · rw [h4, h5, after_after]
        simp

theorem send_response_events (env : Env) (r : Request) (result : Int) :
    ∀ e ∈ (send_response env r result).trace, e.from_generation = true := by
  by_cases hr : result = 0 <;> cases hb : env.bucket <;>
    by_cases hl : env.list_push_ok = true <;>
    by_cases hh : (env.send_header_rc = NGX_ERROR ∨ env.send_header_rc > NGX_OK ∨
      env.header_only = true) <;>
    simp [send_response, hr, hb, hl, hh, Event.from_generation]

theorem generate_events (env : Env) (r : Request) (o : Option mp4_split_options_t)
    (p : ngx_str_t) (m3u8 : Bool) :
    ∀ e ∈ (generate env r o p m3u8).trace, e.from_generation = true := by
  intro e he
  cases m3u8 with
  | true =>
    simp only [generate, if_true, after_trace, List.mem_append, List.mem_cons,
      List.mem_singleton, List.not_mem_nil, or_false] at he
    rcases he with ((rfl | he) | rfl | rfl) | he
    · rfl
    · by_cases h0 : env.m3u8_result = 0
      · simp [h0] at he
      · simp only [ne_eq, h0, not_false_eq_true, if_true, List.mem_singleton] at he
        subst he
        rfl
    · rfl
    · rfl
    · exact send_response_events _ _ _ e he
  | false =>
    cases o with
    | none =>
      simp only [generate, Bool.false_eq_true, if_false, List.mem_cons, List.mem_singleton,
        List.not_mem_nil, or_false] at he
      rcases he with rfl | rfl | rfl <;> rfl
    | some o =>
      by_cases h0 : env.ts_result = 0
      · simp only [generate, Bool.false_eq_true, if_false, h0, if_true, List.mem_cons,
          List.mem_singleton, List.not_mem_nil, or_false] at he
        rcases he with rfl | rfl | rfl <;> rfl
      · simp only [generate, Bool.false_eq_true, if_false, h0, after_trace, List.mem_append,
          List.mem_cons, List.mem_singleton, List.not_mem_nil, or_false] at he
        rcases he with (rfl | rfl | rfl | rfl) | he
        · rfl
        · rfl
        · rfl
        · rfl
        · exact send_response_events _ _ _ e he


theorem send_response_summary (env : Env) (r : Request) (result : Int) :
    (send_response env r result).trace.filter Event.is_generator = [] ∧
    (send_response env r result).trace.filter Event.is_view_count = [] ∧
    (env.bucket = none →
      (send_response env r result).outcome = Outcome.returned NGX_HTTP_UNSUPPORTED_MEDIA_TYPE) ∧
    (send_response env r result).r.content_type = r.content_type ∧
    (send_response env r result).r.content_type_len = r.content_type_len := by
  by_cases hr : result = 0 <;> cases hb : env.bucket <;>
    by_cases hl : env.list_push_ok = true <;>
    by_cases hh : (env.send_header_rc = NGX_ERROR ∨ env.send_header_rc > NGX_OK ∨
      env.header_only = true) <;>
    simp [send_response, hr, hb, hl, hh, Event.is_generator, Event.is_view_count]

theorem generate_summary (env : Env) (r : Request) (o : mp4_split_options_t)
    (p : ngx_str_t) (m3u8 : Bool) :
    (generate env r (some o) p m3u8).trace.filter Event.is_generator =
      [if m3u8 then Event.mp4_create_m3u8 env.m3u8_result
       else Event.output_ts (some o) env.ts_result] ∧
    (generate env r (some o) p m3u8).trace.filter Event.is_view_count =
      (if m3u8 then
        (if env.m3u8_result = 0 then []
         else [Event.view_count (c_str p.data) (some o.hash)
                ("ios_playlist&segments=" ++ toString env.m3u8_result)])
       else
        (if env.ts_result = 0 then []
         else [Event.view_count (c_str p.data) (some o.hash) "ios_view"])) ∧
    (m3u8 = false → env.ts_result = 0 →
      (generate env r (some o) p m3u8).outcome =
        Outcome.returned NGX_HTTP_INTERNAL_SERVER_ERROR) ∧
    (m3u8 = true → env.bucket = none →
      (generate env r (some o) p m3u8).outcome =
        Outcome.returned NGX_HTTP_UNSUPPORTED_MEDIA_TYPE) ∧
    (m3u8 = true →
      (generate env r (some o) p m3u8).r.content_type =
        { data := c_lit "application/vnd.apple.mpegurl", len := 29 } ∧
      (generate env r (some o) p m3u8).r.content_type_len = 29) ∧
    (m3u8 = false →
      (generate env r (some o) p m3u8).r.content_type = r.content_type ∧
      (generate env r (some o) p m3u8).r.content_type_len = r.content_type_len) := by
  cases m3u8 with
  | true =>
    obtain ⟨h1, h2, h3, h4, h5⟩ := send_response_summary env
      { r with
        allow_ranges := false
        content_type := { data := c_lit "application/vnd.apple.mpegurl", len := 29 }
        content_type_len := 29 } env.m3u8_result
    simp only [generate, if_true, after_trace, after_outcome, after_r, List.filter_append,
      h1, h2, h4, h5, List.append_nil]
    refine ⟨?_, ?_, ?_, ?_, ?_, ?_⟩
    · by_cases h0 : env.m3u8_result = 0 <;> simp [h0, Event.is_generator]
    · by_cases h0 : env.m3u8_result = 0 <;> simp [h0, Event.is_view_count]
    · simp
    · exact fun _ hb => h3 hb
    · simp
    · simp
  | false =>
    by_cases h0 : env.ts_result = 0
    · simp [generate, h0, Event.is_generator, Event.is_view_count]
    · obtain ⟨h1, h2, -, h4, h5⟩ := send_response_summary env { r with allow_ranges := true }
        env.ts_result
      simp only [generate, Bool.false_eq_true, if_false, h0, after_trace, after_outcome,
        after_r, List.filter_append, h1, h2, h4, h5, List.append_nil]
      simp [Event.is_generator, Event.is_view_count]


theorem starts_with_iff (hay needle : List u_char) :
    starts_with hay needle = true ↔ needle <+: hay := by
  induction hay generalizing needle with
  | nil => cases needle <;> simp [starts_with]
  | cons h hay ih =>
    cases needle with
    | nil => simp [starts_with]
    | cons n needle =>
      simp only [starts_with, Bool.and_eq_true, beq_iff_eq, ih, List.cons_prefix_cons]
      constructor
      · rintro ⟨rfl, h2⟩; exact ⟨rfl, h2⟩
      · rintro ⟨rfl, h2⟩; exact ⟨rfl, h2⟩

theorem strstr_scan_isSome (needle hay : List u_char) :
    (strstr_scan needle hay).isSome = true ↔ needle <:+: hay := by
  induction hay with
  | nil =>
    cases needle <;> simp [strstr_scan, starts_with]
  | cons h hay ih =>
    rw [List.infix_cons_iff, ← ih, ← starts_with_iff]
    by_cases hs : starts_with (h :: hay) needle = true
    · simp [strstr_scan, hs]
    · simp [strstr_scan, hs]

theorem ngx_strstr_m3u8 (d : List u_char) :
    (ngx_strstr d (c_lit "m3u8")).isSome = true ↔ bytes "m3u8" <:+: c_str d := by
  have hl : c_str (c_lit "m3u8") = bytes "m3u8" := by decide
  rw [ngx_strstr, hl, strstr_scan_isSome]

theorem filter_before_generation (f : Event → Bool) (pre : List Event)
    (hf : ∀ e, e.before_generation = true → f e = false)
    (hpre : ∀ e ∈ pre, e.before_generation = true) : pre.filter f = [] := by
  rw [List.filter_eq_nil_iff]
  intro e he
  simp [hf e (hpre e he)]

theorem generation_split (env : Env) (h : ∃ e ∈ (ngx_streaming_handler env).trace,
    e.before_generation = false) :
    ∃ o p pre, options_in_use env = some o ∧ rewrite_ext env.path.len env.path = some p ∧
      (∀ e ∈ pre, e.before_generation = true) ∧
      ngx_streaming_handler env =
        (generate env env.r (some o) p (ngx_strstr env.path.data (c_lit "m3u8")).isSome).after
          (pre ++ [Event.mp4_open true]) := by
  rcases handler_split env with hs | ⟨-, hs⟩
  · obtain ⟨e, he, hb⟩ := h
    rw [hs e he] at hb
    exact absurd hb (by decide)
  · exact hs

theorem generation_summary (env : Env) (h : ∃ e ∈ (ngx_streaming_handler env).trace,
    e.before_generation = false) :
    ∃ o p, options_in_use env = some o ∧ rewrite_ext env.path.len env.path = some p ∧
      (ngx_streaming_handler env).trace.filter Event.is_generator =
        (generate env env.r (some o) p
          (ngx_strstr env.path.data (c_lit "m3u8")).isSome).trace.filter Event.is_generator ∧
      (ngx_streaming_handler env).trace.filter Event.is_view_count =
        (generate env env.r (some o) p
          (ngx_strstr env.path.data (c_lit "m3u8")).isSome).trace.filter Event.is_view_count ∧
      (ngx_streaming_handler env).outcome =
        (generate env env.r (some o) p
          (ngx_strstr env.path.data (c_lit "m3u8")).isSome).outcome ∧
      (ngx_streaming_handler env).r =
        (generate env env.r (some o) p (ngx_strstr env.path.data (c_lit "m3u8")).isSome).r := by
  obtain ⟨o, p, pre, ho, hp, hpre, heq⟩ := generation_split env h
  have h1 : pre.filter Event.is_generator = [] :=
    filter_before_generation _ pre (by intro e; cases e <;> simp [Event.before_generation,
      Event.before_open, Event.is_generator]) hpre
  have h2 : pre.filter Event.is_view_count = [] :=
    filter_before_generation _ pre (by intro e; cases e <;> simp [Event.before_generation,
      Event.before_open, Event.is_view_count]) hpre
  refine ⟨o, p, ho, hp, ?_, ?_, ?_, ?_⟩
  · rw [heq, after_trace, List.filter_append, List.filter_append, h1]
    simp [Event.is_generator]
  · rw [heq, after_trace, List.filter_append, List.filter_append, h2]
    simp [Event.is_view_count]
  · rw [heq, after_outcome]
  · rw [heq, after_r]

theorem generator_event (env : Env) (e : Event) (he : e ∈ (ngx_streaming_handler env).trace)
    (hg : e.is_generator = true) :
    ∃ o p, options_in_use env = some o ∧ rewrite_ext env.path.len env.path = some p ∧
      e = (if (ngx_strstr env.path.data (c_lit "m3u8")).isSome
            then Event.mp4_create_m3u8 env.m3u8_result
            else Event.output_ts (some o) env.ts_result) ∧
      (ngx_streaming_handler env).trace.filter Event.is_view_count =
        (generate env env.r (some o) p
          (ngx_strstr env.path.data (c_lit "m3u8")).isSome).trace.filter Event.is_view_count ∧
      (ngx_streaming_handler env).outcome =
        (generate env env.r (some o) p
          (ngx_strstr env.path.data (c_lit "m3u8")).isSome).outcome ∧
      (ngx_streaming_handler env).r =
        (generate env env.r (some o) p (ngx_strstr env.path.data (c_lit "m3u8")).isSome).r := by
  have hb : e.before_generation = false := by
    cases e <;> simp_all [Event.before_generation, Event.before_open, Event.is_generator]
  obtain ⟨o, p, ho, hp, h1, h2, h3, h4⟩ := generation_summary env ⟨e, he, hb⟩
  refine ⟨o, p, ho, hp, ?_, h2, h3, h4⟩
  have hmem : e ∈ (ngx_streaming_handler env).trace.filter Event.is_generator :=
    List.mem_filter.mpr ⟨he, hg⟩
  rw [h1, (generate_summary env env.r o p _).1] at hmem
  exact List.mem_singleton.mp hmem

theorem open_event_rc (env : Env) (o : Option mp4_split_options_t) (p : ngx_str_t)
    (m3u8 : Bool) (name : List u_char) (rc : Int)
    (h : Event.ngx_open_cached_file name rc ∈ (open_file env o p m3u8).trace) :
    rc = env.open_rc := by
  by_cases h1 : env.open_rc ≠ NGX_OK
  · rw [open_file_failed env o p m3u8 h1] at h
    cases hc : open_error env.errnos env.of.err with
    | none => rw [hc] at h; simp at h; exact h.2
    | some lr =>
      obtain ⟨level, rc'⟩ := lr
      rw [hc] at h
      by_cases hl : rc' ≠ NGX_HTTP_NOT_FOUND ∨ env.log_not_found = true
      · simp [hl] at h; exact h.2
      · simp [hl] at h; exact h.2
  · unfold open_file at h
    rw [if_neg h1] at h
    split_ifs at h
    · by_cases hc : env.close_rc = NGX_FILE_ERROR <;> simp [hc] at h <;> exact h.2
    · simp at h; exact h.2
    · simp at h; exact h.2
    · simp at h; exact h.2
    · rw [after_trace] at h
      rcases List.mem_append.mp h with h | h
      · simp at h
        exact h.2
      · have := generate_events env env.r o p m3u8 _ h
        simp [Event.from_generation] at this


theorem handler_open_failed (env : Env)
    (hfail : ∃ name rc, rc ≠ NGX_OK ∧
      Event.ngx_open_cached_file name rc ∈ (ngx_streaming_handler env).trace) :
    ∃ (o : Option mp4_split_options_t) (p : ngx_str_t) (pre : List Event),
      (∀ e ∈ pre, e.before_open = true) ∧
      ngx_streaming_handler env =
        (match open_error env.errnos env.of.err with
        | none =>
          (⟨Outcome.returned NGX_HTTP_INTERNAL_SERVER_ERROR,
            [Event.ngx_open_cached_file (c_str p.data) env.open_rc,
             Event.mp4_split_options_exit o], env.r⟩ : Result)
        | some (level, rc) =>
          if rc ≠ NGX_HTTP_NOT_FOUND ∨ env.log_not_found then
            ⟨Outcome.returned rc,
              [Event.ngx_open_cached_file (c_str p.data) env.open_rc,
               Event.mp4_split_options_exit o,
               Event.ngx_log_error level "open() failed"], env.r⟩
          else
            ⟨Outcome.returned rc,
              [Event.ngx_open_cached_file (c_str p.data) env.open_rc,
               Event.mp4_split_options_exit o], env.r⟩).after pre := by
  obtain ⟨name, rc, hrc, hmem⟩ := hfail
  rcases handler_to_open env with hs | ⟨-, o, p, pre, -, -, hpre, heq⟩
  · have := hs _ hmem
    simp [Event.before_open] at this
  · refine ⟨some o, p, pre, hpre, ?_⟩
    rw [heq, after_trace] at hmem
    rcases List.mem_append.mp hmem with hmem | hmem
    · have := hpre _ hmem
      simp [Event.before_open] at this
    · have hne : env.open_rc ≠ NGX_OK := by
        rw [← open_event_rc env _ _ _ _ _ hmem]; exact hrc
      rw [heq, open_file_failed env _ _ _ hne]

/-! ## The claims -/

/-- C1, as amended.  When the generator that was called returned 0: for a
    segment request (`output_ts`) the handler returns 500,
    `NGX_HTTP_INTERNAL_SERVER_ERROR`; for a playlist request
    (`mp4_create_m3u8`) for which `bucket_init` returned NULL it returns 415,
    `NGX_HTTP_UNSUPPORTED_MEDIA_TYPE`.  A generator call in the trace means
    that the run reached generation. -/
theorem zero_result_outcome (env : Env) :
    (∀ o, Event.output_ts o 0 ∈ (ngx_streaming_handler env).trace →
      (ngx_streaming_handler env).outcome =
        Outcome.returned NGX_HTTP_INTERNAL_SERVER_ERROR) ∧
    (Event.mp4_create_m3u8 0 ∈ (ngx_streaming_handler env).trace → env.bucket = none →
      (ngx_streaming_handler env).outcome =
        Outcome.returned NGX_HTTP_UNSUPPORTED_MEDIA_TYPE) := by
  constructor
  · intro o' hmem
    obtain ⟨o, p, -, -, he, -, hout, -⟩ := generator_event env _ hmem rfl
    cases hm : (ngx_strstr env.path.data (c_lit "m3u8")).isSome with
    | true => rw [hm] at he; simp at he
    | false =>
      rw [hm] at he
      simp only [Bool.false_eq_true, if_false, Event.output_ts.injEq] at he
      rw [hout, hm]
      exact (generate_summary env env.r o p false).2.2.1 rfl he.2.symm
  · intro hmem hb
    obtain ⟨o, p, -, -, he, -, hout, -⟩ := generator_event env _ hmem rfl
    cases hm : (ngx_strstr env.path.data (c_lit "m3u8")).isSome with
    | false => rw [hm] at he; simp at he
    | true =>
      rw [hout, hm]
      exact (generate_summary env env.r o p true).2.2.2.1 rfl hb

/-- Witness of C1 as amended: the segment request whose `output_ts` returns 0
    ends in 500, the playlist request without a bucket whose
    `mp4_create_m3u8` returns 0 ends in 415. -/
theorem zero_result_outcome_witness :
    (Event.output_ts (some ⟨"h1"⟩) 0 ∈ (ngx_streaming_handler failed_segment_env).trace ∧
      (ngx_streaming_handler failed_segment_env).outcome = Outcome.returned 500) ∧
    (Event.mp4_create_m3u8 0 ∈ (ngx_streaming_handler empty_playlist_no_bucket_env).trace ∧
      empty_playlist_no_bucket_env.bucket = none ∧
      (ngx_streaming_handler empty_playlist_no_bucket_env).outcome = Outcome.returned 415) :=
  ⟨⟨by decide, (zero_result_outcome failed_segment_env).1 (some ⟨"h1"⟩) (by decide)⟩,
   ⟨by decide, rfl,
    (zero_result_outcome empty_playlist_no_bucket_env).2 (by decide) rfl⟩⟩

/-- Counterexample to C1 as stated.  Both runs reach generation and the
    generator returns 0, and neither returns 415: the segment request returns
    500, and the playlist request (with a bucket) returns what
    `ngx_http_output_filter` returned, here `NGX_OK`. -/
theorem zero_result_not_unsupported :
    (reaches_generation failed_segment_env ∧
      Event.output_ts (some ⟨"h1"⟩) 0 ∈ (ngx_streaming_handler failed_segment_env).trace ∧
      (ngx_streaming_handler failed_segment_env).outcome = Outcome.returned 500 ∧
      (ngx_streaming_handler failed_segment_env).outcome ≠
        Outcome.returned NGX_HTTP_UNSUPPORTED_MEDIA_TYPE) ∧
    (reaches_generation empty_playlist_env ∧
      Event.mp4_create_m3u8 0 ∈ (ngx_streaming_handler empty_playlist_env).trace ∧
      (ngx_streaming_handler empty_playlist_env).outcome = Outcome.returned NGX_OK ∧
      (ngx_streaming_handler empty_playlist_env).outcome ≠
        Outcome.returned NGX_HTTP_UNSUPPORTED_MEDIA_TYPE) := by
  decide

/-- C2, the run that breaks it.  For the playlist request whose
    `mp4_create_m3u8` returns 0 (and whose bucket is not NULL) the handler
    sets status 200, sends the header and hands `bucket->first` to
    `ngx_http_output_filter`: after `result = result == 0 ? 415 : 200` the
    test `result && bucket` no longer sees the 0. -/
theorem empty_playlist_is_sent :
    Event.mp4_create_m3u8 0 ∈ (ngx_streaming_handler empty_playlist_env).trace ∧
    (ngx_streaming_handler empty_playlist_env).r.status = NGX_HTTP_OK ∧
    Event.ngx_http_send_header 200 0 ∈ (ngx_streaming_handler empty_playlist_env).trace ∧
    Event.ngx_http_output_filter 7 0 ∈ (ngx_streaming_handler empty_playlist_env).trace ∧
    empty_playlist_env.bucket = some ⟨1880, 7⟩ ∧
    (ngx_streaming_handler empty_playlist_env).outcome = Outcome.returned NGX_OK := by
  decide

/-- C3, as amended.  For every request that reaches the response step: for a
    playlist request (the mapped path contains "m3u8") the content type is
    exactly "application/vnd.apple.mpegurl" and both length fields are 29, the
    byte length of that string; for a segment request the handler sets no
    content type: both content type fields are as they were on entry. -/
theorem content_type_by_kind (env : Env) (hresp : reaches_response env) :
    (bytes "m3u8" <:+: c_str env.path.data →
      c_str (ngx_streaming_handler env).r.content_type.data =
        bytes "application/vnd.apple.mpegurl" ∧
      (ngx_streaming_handler env).r.content_type.len = 29 ∧
      (ngx_streaming_handler env).r.content_type_len = 29 ∧
      (bytes "application/vnd.apple.mpegurl").length = 29) ∧
    (¬ bytes "m3u8" <:+: c_str env.path.data →
      (ngx_streaming_handler env).r.content_type = env.r.content_type ∧
      (ngx_streaming_handler env).r.content_type_len = env.r.content_type_len) := by
  have hclose : Event.mp4_close ∈ (ngx_streaming_handler env).trace :=
    hresp.subset (List.mem_cons_self _ _)
  obtain ⟨o, p, -, -, -, -, -, hr⟩ := generation_summary env ⟨_, hclose, rfl⟩
  constructor
  · intro hm
    have hs := (ngx_strstr_m3u8 env.path.data).mpr hm
    obtain ⟨h1, h2⟩ := (generate_summary env env.r o p true).2.2.2.2.1 rfl
    rw [hr, hs, h1, h2]
    exact ⟨by decide, rfl, rfl, by decide⟩
  · intro hm
    have hs : (ngx_strstr env.path.data (c_lit "m3u8")).isSome = false := by
      rw [← Bool.not_eq_true, ngx_strstr_m3u8]; exact hm
    rw [hr, hs]
    exact (generate_summary env env.r o p false).2.2.2.2.2 rfl

/-- Witness of C3 as amended, on the playlist request and on the segment
    request. -/
theorem content_type_by_kind_witness :
    (reaches_response playlist_env ∧ bytes "m3u8" <:+: c_str playlist_env.path.data ∧
      c_str (ngx_streaming_handler playlist_env).r.content_type.data =
        bytes "application/vnd.apple.mpegurl" ∧
      (ngx_streaming_handler playlist_env).r.content_type.len = 29 ∧
      (ngx_streaming_handler playlist_env).r.content_type_len = 29 ∧
      (bytes "application/vnd.apple.mpegurl").length = 29) ∧
    (reaches_response segment_env ∧ ¬ bytes "m3u8" <:+: c_str segment_env.path.data ∧
      (ngx_streaming_handler segment_env).r.content_type = segment_env.r.content_type ∧
      (ngx_streaming_handler segment_env).r.content_type_len =
        segment_env.r.content_type_len) :=
  ⟨⟨by decide, by decide, (content_type_by_kind playlist_env (by decide)).1 (by decide)⟩,
   ⟨by decide, by decide, (content_type_by_kind segment_env (by decide)).2 (by decide)⟩⟩

/-- Counterexample to C3 as stated.  The segment request reaches the response
    step and is answered with status 200, and its content type is still the
    empty one it had on entry: no MPEG-TS content type was set. -/
theorem segment_content_type_unset :
    reaches_response segment_env ∧
    ¬ bytes "m3u8" <:+: c_str segment_env.path.data ∧
    Event.output_ts (some ⟨"h1"⟩) 1 ∈ (ngx_streaming_handler segment_env).trace ∧
    (ngx_streaming_handler segment_env).r.status = NGX_HTTP_OK ∧
    (ngx_streaming_handler segment_env).outcome = Outcome.returned NGX_OK ∧
    (ngx_streaming_handler segment_env).r.content_type = { len := 0, data := [] } ∧
    (ngx_streaming_handler segment_env).r.content_type_len = 0 := by
  decide

/-- C4.  If `mp4_create_m3u8` returned `r ≠ 0`, `view_count` is called exactly
    once, with the rewritten path, `options->hash` and the action
    "ios_playlist&segments=" followed by `r` in decimal; if `output_ts`
    returned a non-zero result it is called exactly once, with the rewritten
    path, `options->hash` and the action "ios_view"; if no generator returned
    a non-zero result it is never called; and if any step in front of the
    generation step fails it is never called (and no generator is). -/
theorem view_count_calls (env : Env) :
    (∀ r, r ≠ 0 → Event.mp4_create_m3u8 r ∈ (ngx_streaming_handler env).trace →
      ∃ o p, options_in_use env = some o ∧ rewrite_ext env.path.len env.path = some p ∧
        (ngx_streaming_handler env).trace.filter Event.is_view_count =
          [Event.view_count (c_str p.data) (some o.hash)
            ("ios_playlist&segments=" ++ toString r)]) ∧
    (∀ o' r, r ≠ 0 → Event.output_ts o' r ∈ (ngx_streaming_handler env).trace →
      ∃ o p, options_in_use env = some o ∧ rewrite_ext env.path.len env.path = some p ∧
        (ngx_streaming_handler env).trace.filter Event.is_view_count =
          [Event.view_count (c_str p.data) (some o.hash) "ios_view"]) ∧
    ((∀ r, Event.mp4_create_m3u8 r ∈ (ngx_streaming_handler env).trace → r = 0) →
     (∀ o' r, Event.output_ts o' r ∈ (ngx_streaming_handler env).trace → r = 0) →
      (ngx_streaming_handler env).trace.filter Event.is_view_count = []) ∧
    (earlier_step_fails env →
      (ngx_streaming_handler env).trace.filter Event.is_view_count = [] ∧
      (ngx_streaming_handler env).trace.filter Event.is_generator = []) := by
  refine ⟨?_, ?_, ?_, ?_⟩
  · intro r hr hmem
    obtain ⟨o, p, ho, hp, he, hv, -, -⟩ := generator_event env _ hmem rfl
    refine ⟨o, p, ho, hp, ?_⟩
    rw [hv, (generate_summary env env.r o p _).2.1]
    cases hm : (ngx_strstr env.path.data (c_lit "m3u8")).isSome with
    | true =>
      rw [hm] at he
      simp only [if_true, Event.mp4_create_m3u8.injEq] at he
      subst he
      simp [hr]
    | false =>
      rw [hm] at he
      simp at he
  · intro o' r hr hmem
    obtain ⟨o, p, ho, hp, he, hv, -, -⟩ := generator_event env _ hmem rfl
    refine ⟨o, p, ho, hp, ?_⟩
    rw [hv, (generate_summary env env.r o p _).2.1]
    cases hm : (ngx_strstr env.path.data (c_lit "m3u8")).isSome with
    | true =>
      rw [hm] at he
      simp at he
    | false =>
      rw [hm] at he
      simp only [Bool.false_eq_true, if_false, Event.output_ts.injEq] at he
      obtain ⟨-, rfl⟩ := he
      simp [hr]
  · intro hA hB
    rcases handler_split env with hs | ⟨-, o, p, pre, ho, hp, hpre, heq⟩
    · exact filter_before_generation _ _ (by intro e; cases e <;>
        simp [Event.before_generation, Event.before_open, Event.is_view_count]) hs
    · have hmo : Event.mp4_open true ∈ (ngx_streaming_handler env).trace := by
        rw [heq]; simp
      obtain ⟨o2, p2, ho2, hp2, -, hv, -, -⟩ := generation_summary env ⟨_, hmo, rfl⟩
      rw [ho] at ho2
      rw [hp] at hp2
      cases ho2
      cases hp2
      have hgen := (generate_summary env env.r o p
        (ngx_strstr env.path.data (c_lit "m3u8")).isSome).1
      have hin : ∀ e ∈ (generate env env.r (some o) p
          (ngx_strstr env.path.data (c_lit "m3u8")).isSome).trace.filter Event.is_generator,
          e ∈ (ngx_streaming_handler env).trace := by
        intro e he
        rw [heq, after_trace]
        exact List.mem_append_right _ (List.mem_filter.mp he).1
      rw [hgen] at hin
      rw [hv, (generate_summary env env.r o p _).2.1]
      cases hm : (ngx_strstr env.path.data (c_lit "m3u8")).isSome with
      | true =>
        rw [hm] at hin
        have := hA env.m3u8_result (hin _ (by simp))
        simp [this]
      | false =>
        rw [hm] at hin
        have := hB (some o) env.ts_result (hin _ (by simp))
        simp [this]
  · intro hfail
    rcases handler_split env with hs | ⟨hok, -⟩
    · exact ⟨filter_before_generation _ _ (by intro e; cases e <;>
          simp [Event.before_generation, Event.before_open, Event.is_view_count]) hs,
        filter_before_generation _ _ (by intro e; cases e <;>
          simp [Event.before_generation, Event.before_open, Event.is_generator]) hs⟩
    · exact absurd hfail hok

/-- Witness of C4: the playlist request with 3 segments, the segment request,
    the segment request whose `output_ts` returns 0, and the segment request
    when an earlier step fails (the open fails, the path is a directory, the
    allocation fails, `mp4_open` returns NULL, the mapping fails, the options
    are NULL). -/
theorem view_count_calls_witness :
    (Event.mp4_create_m3u8 3 ∈ (ngx_streaming_handler playlist_env).trace ∧
      ∃ o p, options_in_use playlist_env = some o ∧
        rewrite_ext playlist_env.path.len playlist_env.path = some p ∧
        (ngx_streaming_handler playlist_env).trace.filter Event.is_view_count =
          [Event.view_count (c_str p.data) (some o.hash)
            ("ios_playlist&segments=" ++ toString (3 : Int))]) ∧
    (Event.output_ts (some ⟨"h1"⟩) 1 ∈ (ngx_streaming_handler segment_env).trace ∧
      ∃ o p, options_in_use segment_env = some o ∧
        rewrite_ext segment_env.path.len segment_env.path = some p ∧
        (ngx_streaming_handler segment_env).trace.filter Event.is_view_count =
          [Event.view_count (c_str p.data) (some o.hash) "ios_view"]) ∧
    (ngx_streaming_handler failed_segment_env).trace.filter Event.is_view_count = [] ∧
    (earlier_step_fails missing_file_env ∧
      (ngx_streaming_handler missing_file_env).trace.filter Event.is_view_count = []) ∧
    (earlier_step_fails directory_env ∧
      (ngx_streaming_handler directory_env).trace.filter Event.is_view_count = []) ∧
    (earlier_step_fails no_memory_env ∧
      (ngx_streaming_handler no_memory_env).trace.filter Event.is_view_count = []) ∧
    (earlier_step_fails bad_mp4_env ∧
      (ngx_streaming_handler bad_mp4_env).trace.filter Event.is_view_count = []) ∧
    (earlier_step_fails unmapped_env ∧
      (ngx_streaming_handler unmapped_env).trace.filter Event.is_view_count = []) ∧
    (earlier_step_fails null_options_env ∧
      (ngx_streaming_handler null_options_env).trace.filter Event.is_view_count = []) :=
  have ht : (ngx_streaming_handler failed_segment_env).trace.filter Event.is_generator =
      [Event.output_ts (some ⟨"h1"⟩) 0] := by decide
  have h1 : earlier_step_fails missing_file_env := by decide
  have h2 : earlier_step_fails directory_env := by decide
  have h3 : earlier_step_fails no_memory_env := by decide
  have h4 : earlier_step_fails bad_mp4_env := by decide
  have h5 : earlier_step_fails unmapped_env := by decide
  have h6 : earlier_step_fails null_options_env := by decide
  ⟨⟨by decide, (view_count_calls playlist_env).1 3 (by decide) (by decide)⟩,
   ⟨by decide, (view_count_calls segment_env).2.1 (some ⟨"h1"⟩) 1 (by decide) (by decide)⟩,
   (view_count_calls failed_segment_env).2.2.1
    (fun r h => by
      have hm : Event.mp4_create_m3u8 r ∈
          (ngx_streaming_handler failed_segment_env).trace.filter Event.is_generator :=
        List.mem_filter.mpr ⟨h, rfl⟩
      rw [ht] at hm
      simp at hm)
    (fun o r h => by
      have hm : Event.output_ts o r ∈
          (ngx_streaming_handler failed_segment_env).trace.filter Event.is_generator :=
        List.mem_filter.mpr ⟨h, rfl⟩
      rw [ht] at hm
      simp only [List.mem_singleton, Event.output_ts.injEq] at hm
      exact hm.2),
   ⟨h1, ((view_count_calls missing_file_env).2.2.2 h1).1⟩,
   ⟨h2, ((view_count_calls directory_env).2.2.2 h2).1⟩,
   ⟨h3, ((view_count_calls no_memory_env).2.2.2 h3).1⟩,
   ⟨h4, ((view_count_calls bad_mp4_env).2.2.2 h4).1⟩,
   ⟨h5, ((view_count_calls unmapped_env).2.2.2 h5).1⟩,
   ⟨h6, ((view_count_calls null_options_env).2.2.2 h6).1⟩⟩

/-- C5.  After `ngx_http_hls_merge_conf` each field is the child's value if
    set, else the parent's value if set, else its default (length 8, relative
    1, buffer_size 512*1024, max_buffer_size 10*1024*1024); the function
    returns `NGX_CONF_ERROR` exactly when the effective length is below 1,
    that is 0; and it returns `NGX_CONF_OK` exactly when the length is at
    least 1. -/
theorem merge_conf_effective (prev conf : hls_conf_t) :
    (ngx_http_hls_merge_conf prev conf).conf.length =
      spec_effective (uint_setting conf.length) (uint_setting prev.length) 8 ∧
    (ngx_http_hls_merge_conf prev conf).conf.relative =
      spec_effective (flag_setting conf.relative) (flag_setting prev.relative) 1 ∧
    (ngx_http_hls_merge_conf prev conf).conf.buffer_size =
      spec_effective (size_setting conf.buffer_size) (size_setting prev.buffer_size)
        (512 * 1024) ∧
    (ngx_http_hls_merge_conf prev conf).conf.max_buffer_size =
      spec_effective (size_setting conf.max_buffer_size) (size_setting prev.max_buffer_size)
        (10 * 1024 * 1024) ∧
    ((ngx_http_hls_merge_conf prev conf).rc = conf_rc.NGX_CONF_ERROR ↔
      (ngx_http_hls_merge_conf prev conf).conf.length < 1) ∧
    ((ngx_http_hls_merge_conf prev conf).conf.length < 1 ↔
      (ngx_http_hls_merge_conf prev conf).conf.length = 0) ∧
    ((ngx_http_hls_merge_conf prev conf).rc = conf_rc.NGX_CONF_OK ↔
      1 ≤ (ngx_http_hls_merge_conf prev conf).conf.length) := by
  have hu : ∀ c p d : Nat, ngx_conf_merge_uint_value c p d =
      spec_effective (uint_setting c) (uint_setting p) d := by
    intro c p d
    unfold ngx_conf_merge_uint_value uint_setting spec_effective
    by_cases h1 : c = NGX_CONF_UNSET_UINT <;> by_cases h2 : p = NGX_CONF_UNSET_UINT <;>
      simp [h1, h2]
  have hf : ∀ c p d : Int, ngx_conf_merge_value c p d =
      spec_effective (flag_setting c) (flag_setting p) d := by
    intro c p d
    unfold ngx_conf_merge_value flag_setting spec_effective
    by_cases h1 : c = NGX_CONF_UNSET <;> by_cases h2 : p = NGX_CONF_UNSET <;>
      simp [h1, h2]
  have hsz : ∀ c p d : Nat, ngx_conf_merge_size_value c p d =
      spec_effective (size_setting c) (size_setting p) d := by
    intro c p d
    unfold ngx_conf_merge_size_value size_setting spec_effective
    by_cases h1 : c = NGX_CONF_UNSET_SIZE <;> by_cases h2 : p = NGX_CONF_UNSET_SIZE <;>
      simp [h1, h2]
  have hrc : (ngx_http_hls_merge_conf prev conf).rc =
      if ngx_conf_merge_uint_value conf.length prev.length 8 < 1
      then conf_rc.NGX_CONF_ERROR else conf_rc.NGX_CONF_OK := by
    unfold ngx_http_hls_merge_conf
    dsimp only
    split_ifs <;> rfl
  have hconf : (ngx_http_hls_merge_conf prev conf).conf =
      { length := ngx_conf_merge_uint_value conf.length prev.length 8
        relative := ngx_conf_merge_value conf.relative prev.relative 1
        buffer_size :=
          ngx_conf_merge_size_value conf.buffer_size prev.buffer_size (512 * 1024)
        max_buffer_size :=
          ngx_conf_merge_size_value conf.max_buffer_size prev.max_buffer_size
            (10 * 1024 * 1024) } := by
    unfold ngx_http_hls_merge_conf
    dsimp only
    split_ifs <;> rfl
  rw [hrc, hconf]
  refine ⟨hu _ _ _, hf _ _ _, hsz _ _ _, hsz _ _ _, ?_, ?_, ?_⟩
  · by_cases hlen : ngx_conf_merge_uint_value conf.length prev.length 8 < 1 <;> simp [hlen]
  · exact Nat.lt_one_iff
  · by_cases hlen : ngx_conf_merge_uint_value conf.length prev.length 8 < 1
    · simp only [hlen, if_true]
      constructor
      · intro h; cases h
      · intro h; exact absurd hlen (Nat.not_lt.mpr h)
    · simp only [hlen, if_false, true_iff]
      exact Nat.not_lt.mp hlen

/-- C6, the run that breaks it.  For the segment request whose `output_ts`
    returns 0, `mp4_split_options_init` returned non-NULL options and
    `mp4_open` succeeded; the handler calls `mp4_close` once and returns 500
    without any call of `mp4_split_options_exit`. -/
theorem failed_segment_keeps_options :
    Event.mp4_split_options_init (some ⟨""⟩) ∈
      (ngx_streaming_handler failed_segment_env).trace ∧
    reaches_generation failed_segment_env ∧
    (ngx_streaming_handler failed_segment_env).trace.countP Event.is_mp4_close = 1 ∧
    (ngx_streaming_handler failed_segment_env).trace.countP Event.is_options_exit = 0 ∧
    (ngx_streaming_handler failed_segment_env).outcome =
      Outcome.returned NGX_HTTP_INTERNAL_SERVER_ERROR := by
  decide

/-- C7.  For every request that reaches generation exactly one generator
    call is made: `mp4_create_m3u8` if the mapped path, as it is before the
    extension rewrite, contains "m3u8" anywhere, and `output_ts` (on the
    options in use) otherwise.  The query string and the rewritten path play
    no part in the choice. -/
theorem generator_called_once (env : Env) (hgen : reaches_generation env) :
    (bytes "m3u8" <:+: c_str env.path.data →
      (ngx_streaming_handler env).trace.filter Event.is_generator =
        [Event.mp4_create_m3u8 env.m3u8_result]) ∧
    (¬ bytes "m3u8" <:+: c_str env.path.data →
      (ngx_streaming_handler env).trace.filter Event.is_generator =
        [Event.output_ts (options_in_use env) env.ts_result]) := by
  obtain ⟨o, p, pre, ho, -, hpre, heq⟩ := generation_split env ⟨_, hgen, rfl⟩
  have hfil : pre.filter Event.is_generator = [] :=
    filter_before_generation _ pre (by intro e; cases e <;> simp [Event.before_generation,
      Event.before_open, Event.is_generator]) hpre
  have hg := (generate_summary env env.r o p
    (ngx_strstr env.path.data (c_lit "m3u8")).isSome).1
  rw [heq, after_trace, List.filter_append, List.filter_append, hfil, hg, ho]
  constructor
  · intro hm
    have := (ngx_strstr_m3u8 env.path.data).mpr hm
    simp [this, Event.is_generator]
  · intro hm
    have : (ngx_strstr env.path.data (c_lit "m3u8")).isSome = false := by
      rw [← Bool.not_eq_true, ngx_strstr_m3u8]; exact hm
    simp [this, Event.is_generator]

/-- Witness of C7: the playlist request (whose rewritten path no longer
    contains "m3u8") and the segment request. -/
theorem generator_called_once_witness :
    (reaches_generation playlist_env ∧ bytes "m3u8" <:+: c_str playlist_env.path.data ∧
      (∃ p, rewrite_ext playlist_env.path.len playlist_env.path = some p ∧ ¬ bytes "m3u8" <:+: c_str p.data) ∧
      (ngx_streaming_handler playlist_env).trace.filter Event.is_generator =
        [Event.mp4_create_m3u8 3]) ∧
    (reaches_generation segment_env ∧ ¬ bytes "m3u8" <:+: c_str segment_env.path.data ∧
      (ngx_streaming_handler segment_env).trace.filter Event.is_generator =
        [Event.output_ts (some ⟨"h1"⟩) 1]) :=
  ⟨⟨by decide, by decide, ⟨⟨17, c_lit "/srv/hls/clip.mp4" ++ [0, 0]⟩, by decide, by decide⟩,
    (generator_called_once playlist_env (by decide)).1 (by decide)⟩,
   ⟨by decide, by decide, (generator_called_once segment_env (by decide)).2 (by decide)⟩⟩

/-- C8, as amended.  When `ngx_open_cached_file` fails, the handler returns
    500 if `of.err` is 0, 404 if it is `NGX_ENOENT`, `NGX_ENOTDIR` or
    `NGX_ENAMETOOLONG`, 403 if it is `NGX_EACCES`, and 500 for every other
    code; `mp4_open`, the generators and `view_count` are never called; and
    the failure is logged unless `of.err` is 0, or the outcome is 404 and
    `log_not_found` is off. -/
theorem open_failure_outcome (env : Env) (hd : env.errnos.distinct)
    (hfail : ∃ name rc, rc ≠ NGX_OK ∧
      Event.ngx_open_cached_file name rc ∈ (ngx_streaming_handler env).trace) :
    (env.of.err = 0 →
      (ngx_streaming_handler env).outcome = Outcome.returned 500) ∧
    (env.of.err = env.errnos.NGX_ENOENT ∨ env.of.err = env.errnos.NGX_ENOTDIR ∨
        env.of.err = env.errnos.NGX_ENAMETOOLONG →
      (ngx_streaming_handler env).outcome = Outcome.returned 404) ∧
    (env.of.err = env.errnos.NGX_EACCES →
      (ngx_streaming_handler env).outcome = Outcome.returned 403) ∧
    (env.of.err ≠ 0 → env.of.err ≠ env.errnos.NGX_ENOENT →
        env.of.err ≠ env.errnos.NGX_ENOTDIR → env.of.err ≠ env.errnos.NGX_ENAMETOOLONG →
        env.of.err ≠ env.errnos.NGX_EACCES →
      (ngx_streaming_handler env).outcome = Outcome.returned 500) ∧
    (∀ e ∈ (ngx_streaming_handler env).trace,
      e.is_mp4_open = false ∧ e.is_generator = false ∧ e.is_view_count = false) ∧
    ((∃ level msg, Event.ngx_log_error level msg ∈ (ngx_streaming_handler env).trace) ↔
      (env.of.err ≠ 0 ∧
        ¬ ((ngx_streaming_handler env).outcome = Outcome.returned 404 ∧
            env.log_not_found = false))) := by
  obtain ⟨o, p, pre, hpre, heq⟩ := handler_open_failed env hfail
  obtain ⟨d1, d2, d3, d4, d5, d6, d7⟩ := hd
  have hprelog : ∀ level msg, Event.ngx_log_error level msg ∉ pre := by
    intro level msg hmem
    have := hpre _ hmem
    simp [Event.before_open] at this
  have hprekind : ∀ e ∈ pre,
      e.is_mp4_open = false ∧ e.is_generator = false ∧ e.is_view_count = false := by
    intro e he
    have := hpre e he
    cases e <;> simp_all [Event.before_open, Event.is_mp4_open, Event.is_generator,
      Event.is_view_count]
  by_cases h0 : env.of.err = 0
  · have hc : open_error env.errnos env.of.err = none := by simp [open_error, h0]
    rw [heq, hc]
    refine ⟨?_, ?_, ?_, ?_, ?_, ?_⟩
    · intro _; rfl
    · rintro (h | h | h)
      · exact absurd (h0 ▸ h).symm d1
      · exact absurd (h0 ▸ h).symm d2
      · exact absurd (h0 ▸ h).symm d3
    · intro h; exact absurd (h0 ▸ h).symm d4
    · intro h; exact absurd h0 h
    · intro e he
      rcases List.mem_append.mp he with he | he
      · exact hprekind e he
      · simp at he
        rcases he with rfl | rfl <;> simp [Event.is_mp4_open, Event.is_generator,
          Event.is_view_count]
    · constructor
      · rintro ⟨level, msg, hmem⟩
        rcases List.mem_append.mp hmem with hmem | hmem
        · exact absurd hmem (hprelog _ _)
        · simp at hmem
      · intro h; exact absurd h0 h.1
  · have gen : ∀ level rc, open_error env.errnos env.of.err = some (level, rc) →
        (ngx_streaming_handler env).outcome = Outcome.returned rc ∧
        (∀ e ∈ (ngx_streaming_handler env).trace,
          e.is_mp4_open = false ∧ e.is_generator = false ∧ e.is_view_count = false) ∧
        ((∃ level msg, Event.ngx_log_error level msg ∈ (ngx_streaming_handler env).trace) ↔
          (rc ≠ NGX_HTTP_NOT_FOUND ∨ env.log_not_found = true)) := by
      intro level rc hc
      rw [heq, hc]
      by_cases hl : rc ≠ NGX_HTTP_NOT_FOUND ∨ env.log_not_found = true
      · simp only [hl, if_true, after_outcome, after_trace, iff_true, true_and]
        constructor
        · intro e he
          rcases List.mem_append.mp he with he | he
          · exact hprekind e he
          · simp at he
            rcases he with rfl | rfl | rfl <;> simp [Event.is_mp4_open, Event.is_generator,
              Event.is_view_count]
        · exact ⟨level, "open() failed", by simp⟩
      · simp only [hl, if_false, after_outcome, after_trace, iff_false, true_and]
        constructor
        · intro e he
          rcases List.mem_append.mp he with he | he
          · exact hprekind e he
          · simp at he
            rcases he with rfl | rfl <;> simp [Event.is_mp4_open, Event.is_generator,
              Event.is_view_count]
        · rintro ⟨level, msg, hmem⟩
          rcases List.mem_append.mp hmem with hmem | hmem
          · exact absurd hmem (hprelog _ _)
          · simp at hmem
    by_cases hnf : env.of.err = env.errnos.NGX_ENOENT ∨ env.of.err = env.errnos.NGX_ENOTDIR ∨
        env.of.err = env.errnos.NGX_ENAMETOOLONG
    · obtain ⟨g1, g2, g3⟩ := gen log_level.NGX_LOG_ERR NGX_HTTP_NOT_FOUND
        (by unfold open_error; rw [if_neg h0, if_pos hnf])
      have hacc : env.of.err ≠ env.errnos.NGX_EACCES := by
        rintro h
        rcases hnf with e | e | e
        · exact d5 (h ▸ e)
        · exact d6 (h ▸ e)
        · exact d7 (h ▸ e)
      refine ⟨fun h => absurd h h0, fun _ => g1, fun h => absurd h hacc, ?_, g2, ?_⟩
      · intro _ a b c _
        rcases hnf with e | e | e
        · exact absurd e a
        · exact absurd e b
        · exact absurd e c
      · rw [g3, g1]
        simp [h0, NGX_HTTP_NOT_FOUND]
    · by_cases hac : env.of.err = env.errnos.NGX_EACCES
      · obtain ⟨g1, g2, g3⟩ := gen log_level.NGX_LOG_ERR NGX_HTTP_FORBIDDEN
          (by unfold open_error; rw [if_neg h0, if_neg hnf, if_pos hac])
        refine ⟨fun h => absurd h h0, fun h => absurd h hnf, fun _ => g1, ?_, g2, ?_⟩
        · intro _ _ _ _ e
          exact absurd hac e
        · rw [g3, g1]
          simp [h0, NGX_HTTP_NOT_FOUND, NGX_HTTP_FORBIDDEN]
      · obtain ⟨g1, g2, g3⟩ := gen log_level.NGX_LOG_CRIT NGX_HTTP_INTERNAL_SERVER_ERROR
          (by unfold open_error; rw [if_neg h0, if_neg hnf, if_neg hac])
        refine ⟨fun h => absurd h h0, fun h => absurd h hnf, fun h => absurd h hac,
          fun _ _ _ _ _ => g1, g2, ?_⟩
        rw [g3, g1]
        simp [h0, NGX_HTTP_NOT_FOUND, NGX_HTTP_INTERNAL_SERVER_ERROR]

/-- Witness of C8 as amended: the request for a file that does not exist
    (`of.err = ENOENT`, Linux values) ends in 404 and is logged. -/
theorem open_failure_outcome_witness :
    linux_errnos.distinct ∧
    (∃ name rc, rc ≠ NGX_OK ∧
      Event.ngx_open_cached_file name rc ∈ (ngx_streaming_handler missing_file_env).trace) ∧
    (ngx_streaming_handler missing_file_env).outcome = Outcome.returned 404 ∧
    (∃ level msg,
      Event.ngx_log_error level msg ∈ (ngx_streaming_handler missing_file_env).trace) :=
  have hd : missing_file_env.errnos.distinct := by decide
  have hf : ∃ name rc, rc ≠ NGX_OK ∧
      Event.ngx_open_cached_file name rc ∈ (ngx_streaming_handler missing_file_env).trace :=
    ⟨bytes "/srv/hls/clip.mp4", NGX_ERROR, by decide, by decide⟩
  ⟨hd, hf, (open_failure_outcome missing_file_env hd hf).2.1 (Or.inl rfl),
   (open_failure_outcome missing_file_env hd hf).2.2.2.2.2.2
    ⟨by decide, by decide⟩⟩

/-- Counterexample to C8 as stated.  `ngx_open_cached_file` fails and leaves
    `of.err` at 0: the outcome is 500, not 404, and `log_not_found` is on,
    and yet the handler logs nothing. -/
theorem open_failure_unlogged :
    Event.ngx_open_cached_file (bytes "/srv/hls/clip.mp4") NGX_ERROR ∈
      (ngx_streaming_handler open_failed_no_errno_env).trace ∧
    open_failed_no_errno_env.of.err = 0 ∧
    open_failed_no_errno_env.log_not_found = true ∧
    (ngx_streaming_handler open_failed_no_errno_env).outcome = Outcome.returned 500 ∧
    (ngx_streaming_handler open_failed_no_errno_env).outcome ≠ Outcome.returned 404 ∧
    ∀ e ∈ (ngx_streaming_handler open_failed_no_errno_env).trace, e.is_log = false := by
  decide

/-- C9, the run that breaks it.  For `GET /hls/clip.x` the mapped path
    "/srv/hls/clip.x" holds a '.', at index 13, and sits in the 17-byte
    buffer that `ngx_http_map_uri_to_path(r, &path, &root, 1)` allocated (15
    bytes, the NUL, one reserved byte).  `strcpy(ext, ".mp4")` stores 5 bytes
    at indices 13 to 17, one past the end of the buffer: the rewrite is
    undefined although the path has a '.', and so is the run of the handler. -/
theorem short_extension_overruns :
    46 ∈ c_str short_extension_env.path.data ∧
    strrchr short_extension_env.path.data 46 = some 13 ∧
    short_extension_env.path.len = (c_str short_extension_env.path.data).length + 2 ∧
    short_extension_env.path.data.length = short_extension_env.path.len ∧
    strcpy short_extension_env.path.len short_extension_env.path.data 13 (c_lit ".mp4") =
      none ∧
    rewrite_ext short_extension_env.path.len short_extension_env.path = none ∧
    (ngx_streaming_handler short_extension_env).outcome = Outcome.undefined := by
  decide

/-- C10, the runs that break it.  With a non-empty query string and a NULL
    answer of `mp4_split_options_init`, the handler calls
    `mp4_split_options_set` on the NULL options before it tests them; when
    that call returns 0 it also calls `mp4_split_options_exit` on them.  Both
    runs return `NGX_DECLINED`. -/
theorem null_options_passed_on :
    null_options_env.args ≠ [] ∧ null_options_env.options_init = none ∧
    (ngx_streaming_handler null_options_env).trace =
      [Event.ngx_http_discard_request_body 0, Event.mp4_split_options_init none,
       Event.mp4_split_options_set none (bytes "video=1") 1] ∧
    (ngx_streaming_handler null_options_env).outcome = Outcome.returned NGX_DECLINED ∧
    (ngx_streaming_handler null_options_set_fails_env).trace =
      [Event.ngx_http_discard_request_body 0, Event.mp4_split_options_init none,
       Event.mp4_split_options_set none (bytes "video=1") 0,
       Event.mp4_split_options_exit none] ∧
    (ngx_streaming_handler null_options_set_fails_env).outcome =
      Outcome.returned NGX_DECLINED := by
  decide

end NgxHls
